import Mathlib

/-!
Verification of the aiosu beatmap-file parser (`aiosu/utils/parsers/beatmap.py`)
and its document model (`aiosu/models/files/beatmap.py`).

The Python code is shallowly embedded: Python `str` is `String`, Python `int`
is `Int`, Python `float` is `Rat` (exact rationals stand in for IEEE doubles;
the parsed literals and the divisions the code performs are modelled exactly),
and fallible Python code (which raises `ValueError`, `IndexError`,
`ZeroDivisionError`, `RecursionError` or the pydantic `ValidationError`) returns
`Except PyErr`.
-/

namespace Aiosu

/-! ## Python string and number primitives -/

/-- ASCII decimal digit test, as used by `int()` / `float()` / `str.isdigit`. -/
def isAsciiDigit (c : Char) : Bool :=
  '0' ≤ c && c ≤ '9'

/-- Python line-break characters recognised by `str.splitlines`. -/
def isLineBreak (c : Char) : Bool :=
  c = '\n' || c = '\r' || c = '\x0B' || c = '\x0C' ||
  c = '\x1C' || c = '\x1D' || c = '\x1E' || c = '\x85' ||
  c = '\u2028' || c = '\u2029'

/-- Digit run for `int()` / `float()`: digits with single underscores
allowed between digits (Python 3.6 numeric-literal rule); the flag records
whether the previous character was an underscore. -/
def digitsRun : Bool → List Char → Bool
  | prevU, [] => !prevU
  | prevU, c :: rest =>
    if c = '_' then !prevU && digitsRun true rest
    else isAsciiDigit c && digitsRun false rest

/-- The tail of a digit run (the part after its first digit). -/
def digitsTail (cs : List Char) : Bool :=
  digitsRun false cs

/-- A valid digit run: nonempty, starts with a digit, underscores only
between digits. -/
def digitsOk : List Char → Bool
  | [] => false
  | c :: rest => isAsciiDigit c && digitsTail rest

/-- Numeric value of a digit run (underscores skipped). -/
def natOfDigits (cs : List Char) : Nat :=
  (cs.filter (fun c => c ≠ '_')).foldl (fun a c => a * 10 + (c.toNat - '0'.toNat)) 0

/-- The characters Python `str.strip()` removes by default (ASCII
whitespace). -/
def pyIsSpace (c : Char) : Bool :=
  c = ' ' || c = '\t' || c = '\n' || c = '\r' || c = '\x0B' || c = '\x0C'

/-- Python `str.strip()`. -/
def pyStrip (s : String) : String :=
  String.mk (((s.data.dropWhile pyIsSpace).reverse.dropWhile pyIsSpace).reverse)

/-- Python `int(s)`: strip whitespace, optional sign, digit run. Returns
`none` where Python raises `ValueError`. -/
def pyInt (s : String) : Option Int :=
  match (pyStrip s).data with
  | '+' :: rest => if digitsOk rest then some (natOfDigits rest : Int) else none
  | '-' :: rest => if digitsOk rest then some (-(natOfDigits rest : Int)) else none
  | cs => if digitsOk cs then some (natOfDigits cs : Int) else none

/-- Split a character list at the first exponent marker `e` / `E`. -/
def splitExp : List Char → List Char × Option (List Char)
  | [] => ([], none)
  | c :: rest =>
    if c = 'e' || c = 'E' then ([], some rest)
    else
      let p := splitExp rest
      (c :: p.1, p.2)

/-- Mantissa of a Python float literal: `digits`, `digits.`, `.digits` or
`digits.digits`, each digit run honouring the underscore rule. -/
def parseMantissa (cs : List Char) : Option Rat :=
  match cs.splitOn '.' with
  | [ip] => if digitsOk ip then some ((natOfDigits ip : Int) : Rat) else none
  | [ip, fp] =>
    if ip = [] && fp = [] then none
    else if (ip = [] || digitsOk ip) && (fp = [] || digitsOk fp) then
      some (((natOfDigits ip : Int) : Rat) +
        ((natOfDigits fp : Int) : Rat) / ((10 : Rat) ^ fp.length))
    else none
  | _ => none

/-- Exponent of a Python float literal: optional sign then a digit run. -/
def parseExponent (cs : List Char) : Option Int :=
  match cs with
  | '+' :: rest => if digitsOk rest then some (natOfDigits rest : Int) else none
  | '-' :: rest => if digitsOk rest then some (-(natOfDigits rest : Int)) else none
  | _ => if digitsOk cs then some (natOfDigits cs : Int) else none

/-- Scale a rational by a power of ten. -/
def scalePow10 (q : Rat) (e : Int) : Rat :=
  if 0 ≤ e then q * (10 : Rat) ^ e.toNat else q / (10 : Rat) ^ (-e).toNat

/-- Python `float(s)` restricted to finite decimal literals, valued in `Rat`.
`inf` / `nan` are outside the rational model and return `none`, as do the
strings Python rejects with `ValueError`. -/
def pyFloat (s : String) : Option Rat :=
  let cs := (pyStrip s).data
  let signed : Bool × List Char :=
    match cs with
    | '+' :: rest => (false, rest)
    | '-' :: rest => (true, rest)
    | _ => (false, cs)
  let p := splitExp signed.2
  match parseMantissa p.1 with
  | none => none
  | some m =>
    let v : Option Rat :=
      match p.2 with
      | none => some m
      | some ecs =>
        match parseExponent ecs with
        | none => none
        | some e => some (scalePow10 m e)
    match v with
    | none => none
    | some q => some (if signed.1 then -q else q)

/-- Python `s.startswith(pre)`. -/
def pyStartsWith (s pre : String) : Bool :=
  pre.data.isPrefixOf s.data

/-- Python `s.endswith(suf)`. -/
def pyEndsWith (s suf : String) : Bool :=
  suf.data.isSuffixOf s.data

/-- Python `s.upper()` (ASCII case mapping). -/
def pyToUpper (s : String) : String :=
  String.mk (s.data.map Char.toUpper)

/-- Python `s.lower()` (ASCII case mapping). -/
def pyToLower (s : String) : String :=
  String.mk (s.data.map Char.toLower)

/-- Python `str.isdigit()` (ASCII digits). -/
def pyIsdigit (s : String) : Bool :=
  s.data ≠ [] && s.data.all isAsciiDigit

/-- Python `s.strip(chars)`: remove leading and trailing characters drawn
from `chars`. -/
def pyStripChars (chars : List Char) (s : String) : String :=
  String.mk (((s.data.dropWhile (fun c => c ∈ chars)).reverse.dropWhile
    (fun c => c ∈ chars)).reverse)

/-- Worker for `pySplitChar`: split a character list at every occurrence of
the separator. -/
def splitCharAux (sep : Char) : List Char → List Char → List String
  | [], acc => [String.mk acc.reverse]
  | c :: rest, acc =>
    if c = sep then String.mk acc.reverse :: splitCharAux sep rest []
    else splitCharAux sep rest (c :: acc)

/-- Python `s.split(sep)` for a one-character separator (the only kind the
source uses: `","`, `":"`, `"v"`). Empty pieces are kept. -/
def pySplitChar (sep : Char) (s : String) : List String :=
  splitCharAux sep s.data []

/-- Worker for `pySplit1`. -/
def splitChar1Aux (sep : Char) : List Char → List Char → List String
  | [], acc => [String.mk acc.reverse]
  | c :: rest, acc =>
    if c = sep then [String.mk acc.reverse, String.mk rest]
    else splitChar1Aux sep rest (c :: acc)

/-- Python `s.split(sep, 1)`: at most one split, at the first occurrence. -/
def pySplit1 (sep : Char) (s : String) : List String :=
  splitChar1Aux sep s.data []

/-- Worker for `pySplitlines`. -/
def pySplitlinesAux : List Char → List Char → List String
  | [], [] => []
  | [], acc => [String.mk acc.reverse]
  | '\r' :: '\n' :: rest, acc => String.mk acc.reverse :: pySplitlinesAux rest []
  | c :: rest, acc =>
    if isLineBreak c then String.mk acc.reverse :: pySplitlinesAux rest []
    else pySplitlinesAux rest (c :: acc)

/-- Python `str.splitlines()`: split at line breaks (`\r\n` counts once),
with no trailing empty line. -/
def pySplitlines (s : String) : List String :=
  pySplitlinesAux s.data []

/-! ## Error model

Each constructor records which Python exception escapes the parse. -/

/-- The exceptions the embedded Python code can raise. -/
inductive PyErr where
  /-- The `IndexError` from indexing past the end of a list or string. -/
  | indexError : PyErr
  /-- The `ValueError`, with the message the code formats. -/
  | valueError : String → PyErr
  /-- The `ZeroDivisionError` from `60000 / 0.0`. -/
  | zeroDivisionError : PyErr
  /-- The `RecursionError` from the `from_type` / `_missing_` mutual recursion. -/
  | recursionError : PyErr
  /-- pydantic `ValidationError` from model construction. -/
  | validationError : String → PyErr
deriving DecidableEq

/-- The `int(value)` lifted into the error monad (`ValueError` on failure). -/
def pyIntE (s : String) : Except PyErr Int :=
  match pyInt s with
  | some n => .ok n
  | none => .error (.valueError ("invalid literal for int() with base 10: " ++ s))

/-- The `float(value)` lifted into the error monad (`ValueError` on failure). -/
def pyFloatE (s : String) : Except PyErr Rat :=
  match pyFloat s with
  | some q => .ok q
  | none => .error (.valueError ("could not convert string to float: " ++ s))

/-- The `bool(int(value))`. -/
def pyBoolIntE (s : String) : Except PyErr Bool :=
  (pyIntE s).map (fun n => n ≠ 0)

/-! ## Enumerations (`aiosu/models/files/beatmap.py`)

The `from_type` classmethod of each Python enum takes an arbitrary object; the
possible inputs are a member of the enum itself, an `int`, a `str`, or any
other object. -/

/-- The argument of a `from_type` classmethod. `other` stands for every
Python object that is not a member, an `int` or a `str`. -/
inductive EnumArg (α : Type) where
  | mem : α → EnumArg α
  | int : Int → EnumArg α
  | str : String → EnumArg α
  | other : EnumArg α
deriving DecidableEq

/-- The string Python interpolates for the argument in the
`"... {__o} does not exist."` message. -/
def EnumArg.pyStr {α : Type} : EnumArg α → String
  | .mem _ => "<member>"
  | .int n => toString n
  | .str s => s
  | .other => "<object>"

/-- The `Countdown(IntEnum)`: NONE=0, NORMAL=1, HALF=2, DOUBLE=3. -/
inductive Countdown where
  | NONE : Countdown
  | NORMAL : Countdown
  | HALF : Countdown
  | DOUBLE : Countdown
deriving DecidableEq

/-- Value lookup `Countdown(n)` against the member table. -/
def Countdown.ofValue : Int → Option Countdown
  | 0 => some .NONE
  | 1 => some .NORMAL
  | 2 => some .HALF
  | 3 => some .DOUBLE
  | _ => none

/-- Name lookup `Countdown[name]` against `__members__`. -/
def Countdown.ofName : String → Option Countdown
  | "NONE" => some .NONE
  | "NORMAL" => some .NORMAL
  | "HALF" => some .HALF
  | "DOUBLE" => some .DOUBLE
  | _ => none

/-- The `Countdown.from_type`, fuel-indexed. An `int` (or numeric string) that
matches no member makes `cls(__o)` fall into `_missing_`, which calls
`from_type` again on the same value: the Python call recurses until the
interpreter recursion limit, so exhausting the fuel is `RecursionError`. -/
def Countdown.fromTypeAux : Nat → EnumArg Countdown → Except PyErr Countdown
  | 0, _ => .error .recursionError
  | fuel + 1, a =>
    match a with
    | .mem c => .ok c
    | .int n =>
      match Countdown.ofValue n with
      | some c => .ok c
      | none => Countdown.fromTypeAux fuel (.int n)
    | .str s =>
      if pyIsdigit s then
        match Countdown.ofValue (natOfDigits s.data : Int) with
        | some c => .ok c
        | none => Countdown.fromTypeAux fuel (.int (natOfDigits s.data : Int))
      else
        match Countdown.ofName (pyToUpper s) with
        | some c => .ok c
        | none =>
          .error (.valueError ("Countdown " ++ EnumArg.pyStr a ++ " does not exist."))
    | .other =>
      .error (.valueError ("Countdown " ++ EnumArg.pyStr a ++ " does not exist."))

/-- The `Countdown.from_type` at the default interpreter recursion depth. -/
def Countdown.from_type (a : EnumArg Countdown) : Except PyErr Countdown :=
  Countdown.fromTypeAux 1000 a

/-- The `SampleSet(Enum)`: NONE=0, NORMAL=1, SOFT=2, DRUM=3. -/
inductive SampleSet where
  | NONE : SampleSet
  | NORMAL : SampleSet
  | SOFT : SampleSet
  | DRUM : SampleSet
deriving DecidableEq

/-- Value lookup `SampleSet(n)` against the member table. -/
def SampleSet.ofValue : Int → Option SampleSet
  | 0 => some .NONE
  | 1 => some .NORMAL
  | 2 => some .SOFT
  | 3 => some .DRUM
  | _ => none

/-- Name lookup `SampleSet[name]` against `__members__`. -/
def SampleSet.ofName : String → Option SampleSet
  | "NONE" => some .NONE
  | "NORMAL" => some .NORMAL
  | "SOFT" => some .SOFT
  | "DRUM" => some .DRUM
  | _ => none

/-- The `SampleSet.from_type`, fuel-indexed; same structure as
`Countdown.fromTypeAux`. -/
def SampleSet.fromTypeAux : Nat → EnumArg SampleSet → Except PyErr SampleSet
  | 0, _ => .error .recursionError
  | fuel + 1, a =>
    match a with
    | .mem c => .ok c
    | .int n =>
      match SampleSet.ofValue n with
      | some c => .ok c
      | none => SampleSet.fromTypeAux fuel (.int n)
    | .str s =>
      if pyIsdigit s then
        match SampleSet.ofValue (natOfDigits s.data : Int) with
        | some c => .ok c
        | none => SampleSet.fromTypeAux fuel (.int (natOfDigits s.data : Int))
      else
        match SampleSet.ofName (pyToUpper s) with
        | some c => .ok c
        | none =>
          .error (.valueError ("SampleSet " ++ EnumArg.pyStr a ++ " does not exist."))
    | .other =>
      .error (.valueError ("SampleSet " ++ EnumArg.pyStr a ++ " does not exist."))

/-- The `SampleSet.from_type` at the default interpreter recursion depth. -/
def SampleSet.from_type (a : EnumArg SampleSet) : Except PyErr SampleSet :=
  SampleSet.fromTypeAux 1000 a

/-- The `OverlayPosition(Enum)`: NOCHANGE="NoChange", BELOW="Below",
ABOVE="Above". -/
inductive OverlayPosition where
  | NOCHANGE : OverlayPosition
  | BELOW : OverlayPosition
  | ABOVE : OverlayPosition
deriving DecidableEq

/-- Name lookup `OverlayPosition[name]` against `__members__`. -/
def OverlayPosition.ofName : String → Option OverlayPosition
  | "NOCHANGE" => some .NOCHANGE
  | "BELOW" => some .BELOW
  | "ABOVE" => some .ABOVE
  | _ => none

/-- The `OverlayPosition.from_type`: unlike the two enums above it has no
integer and no numeric-string branch, only the member itself and the
case-insensitive name lookup. -/
def OverlayPosition.from_type (a : EnumArg OverlayPosition) :
    Except PyErr OverlayPosition :=
  match a with
  | .mem c => .ok c
  | .str s =>
    match OverlayPosition.ofName (pyToUpper s) with
    | some c => .ok c
    | none =>
      .error (.valueError ("OverlayPosition " ++ EnumArg.pyStr a ++ " does not exist."))
  | _ =>
    .error (.valueError ("OverlayPosition " ++ EnumArg.pyStr a ++ " does not exist."))

/-- Modelled from the spec: `Gamemode` lives in `aiosu/models/gamemode.py`,
which is not part of the sources under verification; the spec only calls it
an enumeration of the play modes of the game. It is modelled as the four play
modes with ordinals 0–3. -/
inductive Gamemode where
  | STANDARD : Gamemode
  | TAIKO : Gamemode
  | CTB : Gamemode
  | MANIA : Gamemode
deriving DecidableEq

/-- Modelled from the spec: value lookup for `Gamemode`. -/
def Gamemode.ofValue : Int → Option Gamemode
  | 0 => some .STANDARD
  | 1 => some .TAIKO
  | 2 => some .CTB
  | 3 => some .MANIA
  | _ => none

/-! ## Section line parsers (`aiosu/utils/parsers/beatmap.py`)

Each Python `_parse_*_section_line` returns a `(key, value)` tuple; the key
decides which dictionary slot the value lands in, so each is modelled as an
inductive of tagged values. -/

/-- The `EARLY_VERSION_TIMING_OFFSET`. -/
def EARLY_VERSION_TIMING_OFFSET : Int := 24

/-- The `_add_offsets`: add the early-version timing offset. -/
def _add_offsets (time : Int) (version : Int) : Int :=
  if version < 5 then time + EARLY_VERSION_TIMING_OFFSET else time

/-- The `_parse_section_value_from_str`: `s.split(":", 1)[1].strip()`; a line
with no colon raises `IndexError`. -/
def _parse_section_value_from_str (s : String) : Except PyErr String :=
  match (pySplit1 ':' s).get? 1 with
  | some v => .ok (pyStrip v)
  | none => .error .indexError

/-- The `(key, value)` pairs `_parse_general_section_line` can return. -/
inductive GPair where
  | audio_filename : String → GPair
  | audio_lead_in : Int → GPair
  | audio_hash : String → GPair
  | preview_time : Int → GPair
  | countdown : Int → GPair
  | sample_set : String → GPair
  | stack_leniency : Rat → GPair
  | mode : Int → GPair
  | letterbox_in_breaks : Bool → GPair
  | story_fire_in_front : Bool → GPair
  | use_skin_sprites : Bool → GPair
  | always_show_playfield : Bool → GPair
  | overlay_position : String → GPair
  | skin_preference : String → GPair
  | epilepsy_warning : Bool → GPair
  | countdown_offset : Int → GPair
  | special_style : Bool → GPair
  | widescreen_storyboard : Bool → GPair
  | samples_match_playback_rate : Bool → GPair
deriving DecidableEq

/-- The `_parse_general_section_line`: the value is split off first, then the
key is matched by `str.startswith` in source order (so the
`"Countdown"` test also captures `CountdownOffset` lines). -/
def _parse_general_section_line (line : String) : Except PyErr GPair := do
  let value ← _parse_section_value_from_str line
  if pyStartsWith line "AudioFilename" then .ok (.audio_filename value)
  else if pyStartsWith line "AudioLeadIn" then .ok (.audio_lead_in (← pyIntE value))
  else if pyStartsWith line "AudioHash" then .ok (.audio_hash value)
  else if pyStartsWith line "PreviewTime" then .ok (.preview_time (← pyIntE value))
  else if pyStartsWith line "Countdown" then .ok (.countdown (← pyIntE value))
  else if pyStartsWith line "SampleSet" then .ok (.sample_set value)
  else if pyStartsWith line "StackLeniency" then .ok (.stack_leniency (← pyFloatE value))
  else if pyStartsWith line "Mode" then .ok (.mode (← pyIntE value))
  else if pyStartsWith line "LetterboxInBreaks" then
    .ok (.letterbox_in_breaks (← pyBoolIntE value))
  else if pyStartsWith line "StoryFireInFront" then
    .ok (.story_fire_in_front (← pyBoolIntE value))
  else if pyStartsWith line "UseSkinSprites" then
    .ok (.use_skin_sprites (← pyBoolIntE value))
  else if pyStartsWith line "AlwaysShowPlayfield" then
    .ok (.always_show_playfield (← pyBoolIntE value))
  else if pyStartsWith line "OverlayPosition" then .ok (.overlay_position value)
  else if pyStartsWith line "SkinPreference" then .ok (.skin_preference value)
  else if pyStartsWith line "EpilepsyWarning" then
    .ok (.epilepsy_warning (← pyBoolIntE value))
  else if pyStartsWith line "CountdownOffset" then
    .ok (.countdown_offset (← pyIntE value))
  else if pyStartsWith line "SpecialStyle" then .ok (.special_style (← pyBoolIntE value))
  else if pyStartsWith line "WidescreenStoryboard" then
    .ok (.widescreen_storyboard (← pyBoolIntE value))
  else if pyStartsWith line "SamplesMatchPlaybackRate" then
    .ok (.samples_match_playback_rate (← pyBoolIntE value))
  else .error (.valueError ("Unsupported general section line: " ++ line))

/-- The `(key, value)` pairs `_parse_editor_section_line` can return. -/
inductive EPair where
  | bookmarks : List Int → EPair
  | distance_spacing : Rat → EPair
  | beat_divisor : Int → EPair
  | grid_size : Int → EPair
  | timeline_zoom : Rat → EPair
deriving DecidableEq

/-- The `_parse_editor_section_line`. -/
def _parse_editor_section_line (line : String) : Except PyErr EPair := do
  let value ← _parse_section_value_from_str line
  if pyStartsWith line "Bookmarks" then
    .ok (.bookmarks (← (pySplitChar ',' value).mapM pyIntE))
  else if pyStartsWith line "DistanceSpacing" then
    .ok (.distance_spacing (← pyFloatE value))
  else if pyStartsWith line "BeatDivisor" then .ok (.beat_divisor (← pyIntE value))
  else if pyStartsWith line "GridSize" then .ok (.grid_size (← pyIntE value))
  else if pyStartsWith line "TimelineZoom" then .ok (.timeline_zoom (← pyFloatE value))
  else .error (.valueError ("Unsupported editor section line: " ++ line))

/-- The `(key, value)` pairs `_parse_metadata_section_line` can return. -/
inductive MPair where
  | title : String → MPair
  | title_unicode : String → MPair
  | artist : String → MPair
  | artist_unicode : String → MPair
  | creator : String → MPair
  | version : String → MPair
  | source : String → MPair
  | tags : List String → MPair
  | beatmap_id : Int → MPair
  | beatmap_set_id : Int → MPair
deriving DecidableEq

/-- The `_parse_metadata_section_line`. -/
def _parse_metadata_section_line (line : String) : Except PyErr MPair := do
  let value ← _parse_section_value_from_str line
  if pyStartsWith line "Title:" then .ok (.title value)
  else if pyStartsWith line "TitleUnicode" then .ok (.title_unicode value)
  else if pyStartsWith line "Artist:" then .ok (.artist value)
  else if pyStartsWith line "ArtistUnicode" then .ok (.artist_unicode value)
  else if pyStartsWith line "Creator" then .ok (.creator value)
  else if pyStartsWith line "Version" then .ok (.version value)
  else if pyStartsWith line "Source" then .ok (.source value)
  else if pyStartsWith line "Tags" then .ok (.tags (pySplitChar ',' value))
  else if pyStartsWith line "BeatmapID" then .ok (.beatmap_id (← pyIntE value))
  else if pyStartsWith line "BeatmapSetID" then .ok (.beatmap_set_id (← pyIntE value))
  else .error (.valueError ("Unsupported metadata section line: " ++ line))

/-- The `(key, value)` pairs `_parse_difficulty_section_line` can return. -/
inductive DPair where
  | hp_drain_rate : Rat → DPair
  | circle_size : Rat → DPair
  | overall_difficulty : Rat → DPair
  | approach_rate : Rat → DPair
  | slider_multiplier : Rat → DPair
  | slider_tick_rate : Rat → DPair
deriving DecidableEq

/-- The `_parse_difficulty_section_line`. -/
def _parse_difficulty_section_line (line : String) : Except PyErr DPair := do
  let value ← _parse_section_value_from_str line
  if pyStartsWith line "HPDrainRate" then .ok (.hp_drain_rate (← pyFloatE value))
  else if pyStartsWith line "CircleSize" then .ok (.circle_size (← pyFloatE value))
  else if pyStartsWith line "OverallDifficulty" then
    .ok (.overall_difficulty (← pyFloatE value))
  else if pyStartsWith line "ApproachRate" then .ok (.approach_rate (← pyFloatE value))
  else if pyStartsWith line "SliderMultiplier" then
    .ok (.slider_multiplier (← pyFloatE value))
  else if pyStartsWith line "SliderTickRate" then
    .ok (.slider_tick_rate (← pyFloatE value))
  else .error (.valueError ("Unsupported difficulty section line: " ++ line))

/-! ## Events and timing points -/

/-- The `STORYBOARD_EVENTS`. -/
def STORYBOARD_EVENTS : List String := ["Sprite", "Animation", "Sample"]

/-- A background event dictionary. -/
structure BgEvent where
  filename : String
  x_offset : Option Int := none
  y_offset : Option Int := none
deriving DecidableEq

/-- A video event dictionary. -/
structure VideoEvent where
  start_time : Int
  filename : String
  x_offset : Option Int := none
  y_offset : Option Int := none
deriving DecidableEq

/-- A break-period event dictionary. -/
structure BreakEvent where
  start_time : Int
  end_time : Int
deriving DecidableEq

/-- The `(key, value)` pairs `_parse_events_section_line` can return. -/
inductive EventsPair where
  | storyboard_data : String → EventsPair
  | background : BgEvent → EventsPair
  | videos : VideoEvent → EventsPair
  | break_periods : BreakEvent → EventsPair
deriving DecidableEq

/-- The `values[i]` lifted into the error monad (`IndexError` past the end). -/
def listGetE {α : Type} (xs : List α) (i : Nat) : Except PyErr α :=
  match xs.get? i with
  | some x => .ok x
  | none => .error .indexError

/-- The `int(values[i])` when field `i` exists (`len(values) >= i + 1`), else
the legacy default. -/
def intFieldD (values : List String) (i : Nat) (dflt : Int) : Except PyErr Int :=
  if values.length ≥ i + 1 then do pyIntE (← listGetE values i)
  else pure dflt

/-- The `int(values[i])` when field `i` exists, else `None`. -/
def intOptField (values : List String) (i : Nat) : Except PyErr (Option Int) :=
  if values.length ≥ i + 1 then do .ok (some (← pyIntE (← listGetE values i)))
  else pure none

/-- The `bool(int(values[i]))` when field `i` exists, else the legacy default. -/
def boolFieldD (values : List String) (i : Nat) (dflt : Bool) : Except PyErr Bool :=
  if values.length ≥ i + 1 then do pyBoolIntE (← listGetE values i)
  else pure dflt

/-- The `_parse_events_section_line`. The storyboard guard is
`line[0] == " " or event_type in STORYBOARD_EVENTS` — a single space test
(`line[0]` raises `IndexError` on an empty line). -/
def _parse_events_section_line (line : String) : Except PyErr EventsPair := do
  let values := pySplitChar ',' line
  let event_type ← listGetE values 0
  let c0 ← listGetE line.data 0
  if c0 = ' ' || event_type ∈ STORYBOARD_EVENTS then
    .ok (.storyboard_data line)
  else if event_type = "0" then
    let filename := pyStripChars ['"'] (← listGetE values 2)
    let x_offset ← intOptField values 3
    let y_offset ← intOptField values 4
    .ok (.background ⟨filename, x_offset, y_offset⟩)
  else if event_type = "1" || event_type = "Video" then
    let start_time ← pyIntE (← listGetE values 1)
    let filename := pyStripChars ['"'] (← listGetE values 2)
    let x_offset ← intOptField values 3
    let y_offset ← intOptField values 4
    .ok (.videos ⟨start_time, filename, x_offset, y_offset⟩)
  else if event_type = "2" || event_type = "Break" then
    let start_time ← pyIntE (← listGetE values 1)
    let end_time := max start_time (← pyIntE (← listGetE values 2))
    .ok (.break_periods ⟨start_time, end_time⟩)
  else
    .error (.valueError ("Unsupported events section line: " ++ line))

/-- A timing-point dictionary as `_parse_timing_points_section_line`
builds it. -/
structure TimingPoint where
  time : Int
  beat_length : Rat
  speed_multiplier : Rat
  effects : Option Int := none
  bpm : Option Rat := none
  time_signature : Int
  sample_set : Option Int := none
  sample_index : Int
  sample_volume : Option Int := none
  timing_change : Bool
deriving DecidableEq

/-- The `timing_point["bpm"] = 60000 / timing_point["beat_length"]`, executed
only under `if timing_change:`; dividing by a zero beat length is Python's
`ZeroDivisionError`. -/
def bpmField (timing_change : Bool) (beat_length : Rat) :
    Except PyErr (Option Rat) :=
  if timing_change then
    if beat_length = 0 then .error .zeroDivisionError
    else .ok (some (60000 / beat_length))
  else .ok none

/-- The `_parse_timing_points_section_line`: fields beyond the second are
optional with legacy defaults; `bpm` is written only when `timing_change`
holds. -/
def _parse_timing_points_section_line (line : String) : Except PyErr TimingPoint := do
  let values := pySplitChar ',' line
  let time ← pyIntE (← listGetE values 0)
  let beat_length ← pyFloatE (← listGetE values 1)
  let speed_multiplier : Rat :=
    if beat_length < 0 then 100 / -beat_length else 1
  let time_signature ← intFieldD values 2 4
  let sample_set ← intOptField values 3
  let sample_index ← intFieldD values 4 0
  let sample_volume ← intOptField values 5
  let timing_change ← boolFieldD values 6 true
  let effects ← intOptField values 7
  let bpm ← bpmField timing_change beat_length
  .ok { time := time, beat_length := beat_length,
        speed_multiplier := speed_multiplier, effects := effects, bpm := bpm,
        time_signature := time_signature, sample_set := sample_set,
        sample_index := sample_index, sample_volume := sample_volume,
        timing_change := timing_change }

/-! ## Parser state (the accumulation dictionaries of `parse_file`) -/

/-- The `general` dictionary `parse_file` accumulates. -/
structure GeneralRaw where
  audio_filename : Option String := none
  audio_lead_in : Option Int := none
  audio_hash : Option String := none
  preview_time : Option Int := none
  countdown : Option Int := none
  sample_set : Option String := none
  stack_leniency : Option Rat := none
  mode : Option Int := none
  letterbox_in_breaks : Option Bool := none
  story_fire_in_front : Option Bool := none
  use_skin_sprites : Option Bool := none
  always_show_playfield : Option Bool := none
  overlay_position : Option String := none
  skin_preference : Option String := none
  epilepsy_warning : Option Bool := none
  countdown_offset : Option Int := none
  special_style : Option Bool := none
  widescreen_storyboard : Option Bool := none
  samples_match_playback_rate : Option Bool := none
deriving DecidableEq

/-- The `general[key] = value`. -/
def applyGPair (g : GeneralRaw) : GPair → GeneralRaw
  | .audio_filename v => { g with audio_filename := some v }
  | .audio_lead_in v => { g with audio_lead_in := some v }
  | .audio_hash v => { g with audio_hash := some v }
  | .preview_time v => { g with preview_time := some v }
  | .countdown v => { g with countdown := some v }
  | .sample_set v => { g with sample_set := some v }
  | .stack_leniency v => { g with stack_leniency := some v }
  | .mode v => { g with mode := some v }
  | .letterbox_in_breaks v => { g with letterbox_in_breaks := some v }
  | .story_fire_in_front v => { g with story_fire_in_front := some v }
  | .use_skin_sprites v => { g with use_skin_sprites := some v }
  | .always_show_playfield v => { g with always_show_playfield := some v }
  | .overlay_position v => { g with overlay_position := some v }
  | .skin_preference v => { g with skin_preference := some v }
  | .epilepsy_warning v => { g with epilepsy_warning := some v }
  | .countdown_offset v => { g with countdown_offset := some v }
  | .special_style v => { g with special_style := some v }
  | .widescreen_storyboard v => { g with widescreen_storyboard := some v }
  | .samples_match_playback_rate v => { g with samples_match_playback_rate := some v }

/-- The `editor` dictionary. -/
structure EditorRaw where
  bookmarks : Option (List Int) := none
  distance_spacing : Option Rat := none
  beat_divisor : Option Int := none
  grid_size : Option Int := none
  timeline_zoom : Option Rat := none
deriving DecidableEq

/-- The `editor[key] = value`. -/
def applyEPair (e : EditorRaw) : EPair → EditorRaw
  | .bookmarks v => { e with bookmarks := some v }
  | .distance_spacing v => { e with distance_spacing := some v }
  | .beat_divisor v => { e with beat_divisor := some v }
  | .grid_size v => { e with grid_size := some v }
  | .timeline_zoom v => { e with timeline_zoom := some v }

/-- The `metadata` dictionary. -/
structure MetadataRaw where
  title : Option String := none
  title_unicode : Option String := none
  artist : Option String := none
  artist_unicode : Option String := none
  creator : Option String := none
  version : Option String := none
  source : Option String := none
  tags : Option (List String) := none
  beatmap_id : Option Int := none
  beatmap_set_id : Option Int := none
deriving DecidableEq

/-- The `metadata[key] = value`. -/
def applyMPair (m : MetadataRaw) : MPair → MetadataRaw
  | .title v => { m with title := some v }
  | .title_unicode v => { m with title_unicode := some v }
  | .artist v => { m with artist := some v }
  | .artist_unicode v => { m with artist_unicode := some v }
  | .creator v => { m with creator := some v }
  | .version v => { m with version := some v }
  | .source v => { m with source := some v }
  | .tags v => { m with tags := some v }
  | .beatmap_id v => { m with beatmap_id := some v }
  | .beatmap_set_id v => { m with beatmap_set_id := some v }

/-- The `difficulty` dictionary. -/
structure DifficultyRaw where
  hp_drain_rate : Option Rat := none
  circle_size : Option Rat := none
  overall_difficulty : Option Rat := none
  approach_rate : Option Rat := none
  slider_multiplier : Option Rat := none
  slider_tick_rate : Option Rat := none
deriving DecidableEq

/-- The `difficulty[key] = value`. -/
def applyDPair (d : DifficultyRaw) : DPair → DifficultyRaw
  | .hp_drain_rate v => { d with hp_drain_rate := some v }
  | .circle_size v => { d with circle_size := some v }
  | .overall_difficulty v => { d with overall_difficulty := some v }
  | .approach_rate v => { d with approach_rate := some v }
  | .slider_multiplier v => { d with slider_multiplier := some v }
  | .slider_tick_rate v => { d with slider_tick_rate := some v }

/-- The `events` dictionary: `background` is a single overwritable slot,
the other keys are append-only lists created on demand. -/
structure EventsRaw where
  background : Option BgEvent := none
  videos : List VideoEvent := []
  break_periods : List BreakEvent := []
  storyboard_data : List String := []
deriving DecidableEq

/-- How `parse_file` folds one parsed events pair into the `events`
dictionary: break periods get `_add_offsets` on both endpoints before the
append; backgrounds replace the slot; the rest are appended as-is. -/
def applyEventsPair (version : Int) (ev : EventsRaw) : EventsPair → EventsRaw
  | .storyboard_data l => { ev with storyboard_data := ev.storyboard_data ++ [l] }
  | .background e => { ev with background := some e }
  | .videos e => { ev with videos := ev.videos ++ [e] }
  | .break_periods e =>
    { ev with break_periods := ev.break_periods ++
        [{ start_time := _add_offsets e.start_time version,
           end_time := _add_offsets e.end_time version }] }

/-- All accumulation dictionaries of one `parse_file` call. -/
structure ParserState where
  general : GeneralRaw := {}
  editor : EditorRaw := {}
  metadata : MetadataRaw := {}
  difficulty : DifficultyRaw := {}
  events : EventsRaw := {}
  timing_points : List TimingPoint := []
deriving DecidableEq

/-- The empty initial parser state. -/
def initState : ParserState := {}

/-- Dispatch one non-blank, non-section-header line on the current section
context. Lines under no section or an unrecognised section fall through
every branch and are ignored. -/
def handleLine (version : Int) (cur : Option String) (st : ParserState)
    (line : String) : Except PyErr ParserState :=
  if cur = some "general" then
    (_parse_general_section_line line).map
      (fun p => { st with general := applyGPair st.general p })
  else if cur = some "editor" then
    (_parse_editor_section_line line).map
      (fun p => { st with editor := applyEPair st.editor p })
  else if cur = some "metadata" then
    (_parse_metadata_section_line line).map
      (fun p => { st with metadata := applyMPair st.metadata p })
  else if cur = some "difficulty" then
    (_parse_difficulty_section_line line).map
      (fun p => { st with difficulty := applyDPair st.difficulty p })
  else if cur = some "events" then
    if pyStartsWith line "//" then .ok st
    else
      (_parse_events_section_line line).map
        (fun p => { st with events := applyEventsPair version st.events p })
  else if cur = some "timingpoints" then
    (_parse_timing_points_section_line line).map
      (fun tp => { st with timing_points := st.timing_points ++
          [{ tp with time := _add_offsets tp.time version }] })
  else .ok st

/-- The section name a `[SectionName]` line switches to. -/
def sectionName (line : String) : String :=
  pyToLower (pyStripChars ['[', ']'] line)

/-- The main loop of `parse_file`: skip blank lines, switch section on
bracketed lines, dispatch everything else. -/
def parseLines (version : Int) :
    Option String → ParserState → List String → Except PyErr ParserState
  | _, st, [] => .ok st
  | cur, st, line :: rest =>
    if pyStrip line = "" then parseLines version cur st rest
    else if pyStartsWith line "[" && pyEndsWith line "]" then
      parseLines version (some (sectionName line)) st rest
    else
      match handleLine version cur st line with
      | .error e => .error e
      | .ok st2 => parseLines version cur st2 rest

/-- The `int(file_header.split("v")[1])`: the version is whatever follows the
first `v` of the header, converted by `int()`. -/
def parseVersion (file_header : String) : Except PyErr Int := do
  pyIntE (← listGetE (pySplitChar 'v' file_header) 1)

/-! ## The validated document model (`aiosu/models/files/beatmap.py`)

pydantic validation of one section record: each required field must be
present, and enum-typed fields are coerced through the `_missing_` hook, which for these enums is
hook, which is `from_type`. A `ValueError` raised during field validation
becomes a `ValidationError`; other exceptions (the `RecursionError` of the
`from_type` loop) propagate as themselves. -/

/-- A missing required field is a pydantic `ValidationError`. -/
def requireField {α : Type} (name : String) : Option α → Except PyErr α
  | some a => .ok a
  | none => .error (.validationError ("Field required: " ++ name))

/-- pydantic wraps a `ValueError` raised by a field validator into a
`ValidationError`; everything else propagates unchanged. -/
def wrapFieldErr {α : Type} : Except PyErr α → Except PyErr α
  | .ok a => .ok a
  | .error (.valueError m) => .error (.validationError m)
  | .error e => .error e

/-- The validated `GeneralSection` model. -/
structure GeneralSection where
  audio_filename : String
  audio_lead_in : Int
  audio_hash : Option String := none
  preview_time : Int
  countdown : Countdown
  sample_set : SampleSet
  stack_leniency : Rat
  mode : Gamemode
  letterbox_in_breaks : Bool
  story_fire_in_front : Option Bool := none
  use_skin_sprites : Option Bool := none
  always_show_playfield : Option Bool := none
  overlay_position : Option OverlayPosition := none
  skin_preference : Option String := none
  epilepsy_warning : Option Bool := none
  countdown_offset : Option Int := none
  special_style : Option Bool := none
  widescreen_storyboard : Option Bool := none
  samples_match_playback_rate : Option Bool := none
deriving DecidableEq

/-- Coercion of the raw `mode` integer into the spec-modelled `Gamemode`
during validation. -/
def gamemodeField (mr : Int) : Except PyErr Gamemode :=
  match Gamemode.ofValue mr with
  | some m => .ok m
  | none => .error (.validationError ("Gamemode " ++ toString mr ++ " does not exist."))

/-- Coercion of the optional raw overlay-position string through
`OverlayPosition.from_type` during validation. -/
def overlayField (o : Option String) : Except PyErr (Option OverlayPosition) :=
  match o with
  | none => .ok none
  | some s => (wrapFieldErr (OverlayPosition.from_type (.str s))).map some

/-- Validate the `general` dictionary into a `GeneralSection`. The parser
hands `countdown` over as an `int` and `sample_set` / `overlay_position`
as raw strings, so those coercions run through `from_type`. -/
def validateGeneral (g : GeneralRaw) : Except PyErr GeneralSection := do
  let audio_filename ← requireField "audio_filename" g.audio_filename
  let audio_lead_in ← requireField "audio_lead_in" g.audio_lead_in
  let preview_time ← requireField "preview_time" g.preview_time
  let countdownRaw ← requireField "countdown" g.countdown
  let countdown ← wrapFieldErr (Countdown.from_type (.int countdownRaw))
  let sampleSetRaw ← requireField "sample_set" g.sample_set
  let sample_set ← wrapFieldErr (SampleSet.from_type (.str sampleSetRaw))
  let stack_leniency ← requireField "stack_leniency" g.stack_leniency
  let modeRaw ← requireField "mode" g.mode
  let mode ← gamemodeField modeRaw
  let letterbox_in_breaks ← requireField "letterbox_in_breaks" g.letterbox_in_breaks
  let overlay_position ← overlayField g.overlay_position
  .ok { audio_filename := audio_filename, audio_lead_in := audio_lead_in,
        audio_hash := g.audio_hash, preview_time := preview_time,
        countdown := countdown, sample_set := sample_set,
        stack_leniency := stack_leniency, mode := mode,
        letterbox_in_breaks := letterbox_in_breaks,
        story_fire_in_front := g.story_fire_in_front,
        use_skin_sprites := g.use_skin_sprites,
        always_show_playfield := g.always_show_playfield,
        overlay_position := overlay_position,
        skin_preference := g.skin_preference,
        epilepsy_warning := g.epilepsy_warning,
        countdown_offset := g.countdown_offset,
        special_style := g.special_style,
        widescreen_storyboard := g.widescreen_storyboard,
        samples_match_playback_rate := g.samples_match_playback_rate }

/-- The validated `EditorSection` model. -/
structure EditorSection where
  bookmarks : Option (List Int) := none
  distance_spacing : Rat
  beat_divisor : Int
  grid_size : Int
  timeline_zoom : Rat
deriving DecidableEq

/-- Validate the `editor` dictionary. -/
def validateEditor (e : EditorRaw) : Except PyErr EditorSection := do
  let distance_spacing ← requireField "distance_spacing" e.distance_spacing
  let beat_divisor ← requireField "beat_divisor" e.beat_divisor
  let grid_size ← requireField "grid_size" e.grid_size
  let timeline_zoom ← requireField "timeline_zoom" e.timeline_zoom
  .ok { bookmarks := e.bookmarks, distance_spacing := distance_spacing,
        beat_divisor := beat_divisor, grid_size := grid_size,
        timeline_zoom := timeline_zoom }

/-- The validated `MetadataSection` model. -/
structure MetadataSection where
  title : String
  title_unicode : Option String := none
  artist : String
  artist_unicode : Option String := none
  creator : String
  version : String
  source : Option String := none
  tags : Option (List String) := none
  beatmap_id : Option Int := none
  beatmap_set_id : Option Int := none
deriving DecidableEq

/-- Validate the `metadata` dictionary. -/
def validateMetadata (m : MetadataRaw) : Except PyErr MetadataSection := do
  let title ← requireField "title" m.title
  let artist ← requireField "artist" m.artist
  let creator ← requireField "creator" m.creator
  let version ← requireField "version" m.version
  .ok { title := title, title_unicode := m.title_unicode, artist := artist,
        artist_unicode := m.artist_unicode, creator := creator,
        version := version, source := m.source, tags := m.tags,
        beatmap_id := m.beatmap_id, beatmap_set_id := m.beatmap_set_id }

/-- The validated `DifficultySection` model. -/
structure DifficultySection where
  hp_drain_rate : Rat
  circle_size : Rat
  overall_difficulty : Rat
  approach_rate : Rat
  slider_multiplier : Rat
  slider_tick_rate : Rat
deriving DecidableEq

/-- Validate the `difficulty` dictionary. -/
def validateDifficulty (d : DifficultyRaw) : Except PyErr DifficultySection := do
  let hp_drain_rate ← requireField "hp_drain_rate" d.hp_drain_rate
  let circle_size ← requireField "circle_size" d.circle_size
  let overall_difficulty ← requireField "overall_difficulty" d.overall_difficulty
  let approach_rate ← requireField "approach_rate" d.approach_rate
  let slider_multiplier ← requireField "slider_multiplier" d.slider_multiplier
  let slider_tick_rate ← requireField "slider_tick_rate" d.slider_tick_rate
  .ok { hp_drain_rate := hp_drain_rate, circle_size := circle_size,
        overall_difficulty := overall_difficulty, approach_rate := approach_rate,
        slider_multiplier := slider_multiplier,
        slider_tick_rate := slider_tick_rate }

/-- The `BeatmapFile` document. The `events` and `timing_points` fields are
modelled from the spec: the Document of the spec exposes an `events` aggregate
and an ordered `timing_points` sequence, but the model classes backing them
(and the pydantic `BaseModel` configuration deciding the fate of the extra
keyword arguments `parse_file` passes) are not among the sources under
verification; the parser hands both straight to the constructor. -/
structure BeatmapFile where
  file_version : Int
  file_md5 : String
  general : GeneralSection
  editor : EditorSection
  metadata : MetadataSection
  difficulty : DifficultySection
  events : EventsRaw
  timing_points : List TimingPoint
deriving DecidableEq

/-- The `BeatmapFile._apply_offsets`, the `mode="after"` model validator: the
guard is Python truthiness `if self.general.preview_time and
self.general.preview_time != -1`, so a preview time of `0` is skipped along
with `-1`. -/
def BeatmapFile._apply_offsets (file : BeatmapFile) : BeatmapFile :=
  if file.general.preview_time ≠ 0 ∧ file.general.preview_time ≠ -1 then
    { file with general := { file.general with
        preview_time := _add_offsets file.general.preview_time file.file_version } }
  else file

/-- The `BeatmapFile(**beatmap)`: field validation of every section, then the
`_apply_offsets` model validator. -/
def BeatmapFile.construct (file_version : Int) (file_md5 : String)
    (st : ParserState) : Except PyErr BeatmapFile := do
  let general ← validateGeneral st.general
  let editor ← validateEditor st.editor
  let metadata ← validateMetadata st.metadata
  let difficulty ← validateDifficulty st.difficulty
  .ok (BeatmapFile._apply_offsets
    { file_version := file_version, file_md5 := file_md5, general := general,
      editor := editor, metadata := metadata, difficulty := difficulty,
      events := st.events, timing_points := st.timing_points })

/-- The `parse_file`. The source hashes the buffer with `hashlib.md5(...)
.hexdigest()` — an external library call — so the digest function `md5hex`
is a parameter of the model; everything after `file.read()` is the
code of the source itself. -/
def parse_file (md5hex : String → String) (buffer : String) :
    Except PyErr BeatmapFile := do
  let lines := pySplitlines buffer
  let file_md5 := md5hex buffer
  match lines with
  | [] => .error .indexError
  | file_header :: rest =>
    let file_version ← parseVersion file_header
    let st ← parseLines file_version none initState rest
    BeatmapFile.construct file_version file_md5 st

/-! ## Helper lemmas -/

attribute [local semireducible] Rat.add Rat.mul Rat.inv

theorem except_bind_ok {ε α β : Type} {x : Except ε α} {f : α → Except ε β} {b : β} :
    (x >>= f) = .ok b ↔ ∃ a, x = .ok a ∧ f a = .ok b := by
  cases x <;> simp [Bind.bind, Except.bind]

theorem except_ok_bind {ε α β : Type} (a : α) (f : α → Except ε β) :
    ((Except.ok a : Except ε α) >>= f) = f a := rfl

theorem except_map_ok {ε α β : Type} {f : α → β} {x : Except ε α} {b : β} :
    Except.map f x = .ok b ↔ ∃ a, x = .ok a ∧ f a = b := by
  cases x <;> simp [Except.map]

theorem except_pure_ok {ε α : Type} {a b : α} :
    (pure a : Except ε α) = .ok b ↔ a = b := by
  simp [pure, Except.pure]

instance {ε α : Type} [DecidableEq ε] [DecidableEq α] :
    DecidableEq (Except ε α) := fun a b =>
  match a, b with
  | .ok x, .ok y =>
    if h : x = y then isTrue (by rw [h])
    else isFalse (fun c => h (Except.ok.inj c))
  | .ok _, .error _ => isFalse (fun c => Except.noConfusion c)
  | .error _, .ok _ => isFalse (fun c => Except.noConfusion c)
  | .error x, .error y =>
    if h : x = y then isTrue (by rw [h])
    else isFalse (fun c => h (Except.error.inj c))

/-- Whether an `Except` computation succeeded. -/
def exceptOk {ε α : Type} : Except ε α → Bool
  | .ok _ => true
  | .error _ => false

theorem exceptOk_exists {ε α : Type} {x : Except ε α} (h : exceptOk x = true) :
    ∃ a, x = .ok a := by
  cases x with
  | ok a => exact ⟨a, rfl⟩
  | error e => simp [exceptOk] at h

/-- The `_apply_offsets` touches only `general.preview_time`. -/
theorem apply_offsets_fields (f : BeatmapFile) :
    (BeatmapFile._apply_offsets f).file_version = f.file_version ∧
    (BeatmapFile._apply_offsets f).file_md5 = f.file_md5 ∧
    (BeatmapFile._apply_offsets f).events = f.events ∧
    (BeatmapFile._apply_offsets f).timing_points = f.timing_points := by
  unfold BeatmapFile._apply_offsets
  split <;> exact ⟨rfl, rfl, rfl, rfl⟩

/-- Inversion of a successful `BeatmapFile.construct`: the header fields
and the spec-modelled aggregates are copied from the parser state. -/
theorem construct_ok_fields {v : Int} {m : String} {st : ParserState}
    {doc : BeatmapFile} (h : BeatmapFile.construct v m st = .ok doc) :
    doc.file_version = v ∧ doc.file_md5 = m ∧ doc.events = st.events ∧
    doc.timing_points = st.timing_points := by
  unfold BeatmapFile.construct at h
  simp only [bind, Except.bind] at h
  split at h
  · exact absurd h (by simp)
  · split at h
    · exact absurd h (by simp)
    · split at h
      · exact absurd h (by simp)
      · split at h
        · exact absurd h (by simp)
        · simp only [Except.ok.injEq] at h
          subst h
          exact apply_offsets_fields _

/-- Inversion of a successful `parse_file` into its phases. -/
theorem parse_file_ok_inv {md5hex : String → String} {buffer : String}
    {doc : BeatmapFile} (h : parse_file md5hex buffer = .ok doc) :
    ∃ file_header rest version st,
      pySplitlines buffer = file_header :: rest ∧
      parseVersion file_header = .ok version ∧
      parseLines version none initState rest = .ok st ∧
      BeatmapFile.construct version (md5hex buffer) st = .ok doc := by
  unfold parse_file at h
  simp only [bind, Except.bind] at h
  split at h
  · exact absurd h (by simp)
  · rename_i file_header rest heq
    split at h
    · exact absurd h (by simp)
    · rename_i version hv
      split at h
      · exact absurd h (by simp)
      · rename_i st hst
        exact ⟨file_header, rest, version, st, heq, hv, hst, h⟩

/-! ## Concrete inputs for witnesses and counterexamples -/

/-- A stand-in digest function for concrete runs (`parse_file` is proved
correct for every digest function). -/
def md5Stub : String → String := fun _ => "d41d8cd98f00b204e9800998ecf8427e"

/-- A complete format-v14 file: all required fields, a comment, a
background, a break, and two timing points with duplicate out-of-order
times. -/
def sampleV14 : String :=
  "osu file format v14\n[General]\nAudioFilename: song.mp3\nAudioLeadIn: 0\nPreviewTime: 1000\nCountdown: 1\nSampleSet: Normal\nStackLeniency: 0.7\nMode: 0\nLetterboxInBreaks: 0\n[Editor]\nDistanceSpacing: 1.2\nBeatDivisor: 4\nGridSize: 16\nTimelineZoom: 1\n[Metadata]\nTitle:Song\nArtist:Artist\nCreator:Me\nVersion:Hard\n[Difficulty]\nHPDrainRate: 5\nCircleSize: 4\nOverallDifficulty: 7\nApproachRate: 9\nSliderMultiplier: 1.4\nSliderTickRate: 1\n[Events]\n//comment\n0,0,\"bg.png\"\n2,100,50\n[TimingPoints]\n500,333.33,4,2,1,60,1,0\n500,-100\n400,200\n"

/-- The same file at format v4 with `PreviewTime: 0`. -/
def sampleV4Preview0 : String :=
  "osu file format v4\n[General]\nAudioFilename: song.mp3\nAudioLeadIn: 0\nPreviewTime: 0\nCountdown: 1\nSampleSet: Normal\nStackLeniency: 0.7\nMode: 0\nLetterboxInBreaks: 0\n[Editor]\nDistanceSpacing: 1.2\nBeatDivisor: 4\nGridSize: 16\nTimelineZoom: 1\n[Metadata]\nTitle:Song\nArtist:Artist\nCreator:Me\nVersion:Hard\n[Difficulty]\nHPDrainRate: 5\nCircleSize: 4\nOverallDifficulty: 7\nApproachRate: 9\nSliderMultiplier: 1.4\nSliderTickRate: 1\n"

/-- A file whose header is just `v7` — nothing like
`osu file format vN` — with a complete body. -/
def sampleHeaderV7 : String :=
  "v7\n[General]\nAudioFilename: a.mp3\nAudioLeadIn: 0\nPreviewTime: -1\nCountdown: 0\nSampleSet: None\nStackLeniency: 1\nMode: 0\nLetterboxInBreaks: 0\n[Editor]\nDistanceSpacing: 1\nBeatDivisor: 1\nGridSize: 1\nTimelineZoom: 1\n[Metadata]\nTitle:T\nArtist:A\nCreator:C\nVersion:V\n[Difficulty]\nHPDrainRate: 1\nCircleSize: 1\nOverallDifficulty: 1\nApproachRate: 1\nSliderMultiplier: 1\nSliderTickRate: 1\n"

/-- A fully-populated parser state (used to instantiate theorems about
`BeatmapFile.construct` at a concrete input). -/
def sampleState : ParserState :=
  { general := { audio_filename := some "a.mp3", audio_lead_in := some 0,
                 preview_time := some 1000, countdown := some 1,
                 sample_set := some "Normal", stack_leniency := some 1,
                 mode := some 0, letterbox_in_breaks := some false },
    editor := { distance_spacing := some 1, beat_divisor := some 1,
                grid_size := some 1, timeline_zoom := some 1 },
    metadata := { title := some "T", artist := some "A", creator := some "C",
                  version := some "V" },
    difficulty := { hp_drain_rate := some 1, circle_size := some 1,
                    overall_difficulty := some 1, approach_rate := some 1,
                    slider_multiplier := some 1, slider_tick_rate := some 1 } }

/-! ## Claims -/

/-- C3: for every valid input, the content hash of the document equals the
digest of the entire original buffer (header line included, before any
other processing), a pure function of the input bytes: whatever digest
function stands for MD5, a successful `parse_file` returns exactly
`md5hex buffer` as `file_md5`, untouched by field parsing and by the
offset-correction pass. -/
theorem content_hash_is_digest_of_entire_buffer (md5hex : String → String)
    (buffer : String) (doc : BeatmapFile)
    (h : parse_file md5hex buffer = .ok doc) :
    doc.file_md5 = md5hex buffer := by
  obtain ⟨fh, rest, version, st, _, _, _, hc⟩ := parse_file_ok_inv h
  exact (construct_ok_fields hc).2.1

theorem content_hash_is_digest_of_entire_buffer_witness :
    ∃ doc, parse_file md5Stub sampleV14 = .ok doc ∧
      doc.file_md5 = md5Stub sampleV14 := by
  obtain ⟨doc, hd⟩ := exceptOk_exists (x := parse_file md5Stub sampleV14) (by decide)
  exact ⟨doc, hd, content_hash_is_digest_of_entire_buffer md5Stub sampleV14 doc hd⟩

/-- C9: the claim is right and the code is wrong. A General-section line
`CountdownOffset: 3` is captured by the earlier `line.startswith
("Countdown")` test, so the parser returns the pair for the countdown
*mode* key with value 3; the `CountdownOffset` branch of
`_parse_general_section_line` is unreachable and the countdown-offset
field is never assigned. -/
theorem countdown_offset_line_sets_countdown_mode :
    _parse_general_section_line "CountdownOffset: 3" = .ok (.countdown 3) ∧
    GPair.countdown 3 ≠ GPair.countdown_offset 3 ∧
    applyGPair {} (GPair.countdown 3) =
      { countdown := some 3 } := by decide

/-- C4: a parsed timing point carries no BPM when `timing_change` is false,
and carries exactly `60000 / beat_length` when `timing_change` is true and
the beat length is positive. -/
theorem bpm_only_for_tempo_points (line : String) (tp : TimingPoint)
    (h : _parse_timing_points_section_line line = .ok tp) :
    (tp.timing_change = false → tp.bpm = none) ∧
    (tp.timing_change = true → 0 < tp.beat_length →
      tp.bpm = some (60000 / tp.beat_length)) := by
  unfold _parse_timing_points_section_line at h
  simp only [except_bind_ok, except_map_ok, except_pure_ok, Except.ok.injEq] at h
  obtain ⟨v0, hv0, t, ht, v1, hv1, bl, hbl, sig, hsig, ss, hss, si, hsi, sv, hsv,
    tc, htc, eff, heff, bpmv, hbpm, htp⟩ := h
  subst htp
  unfold bpmField at hbpm
  constructor
  · intro hf
    simp only at hf
    subst hf
    simp only [Bool.false_eq_true, if_false] at hbpm
    exact (Except.ok.inj hbpm).symm
  · intro ht1 hb
    simp only at ht1
    subst ht1
    simp only [if_true] at hbpm
    split at hbpm
    · exact absurd hbpm (by simp)
    · exact (Except.ok.inj hbpm).symm

theorem bpm_only_for_tempo_points_witness :
    ∃ tp, _parse_timing_points_section_line "500,333.33,4,2,1,60,1,0" = .ok tp ∧
      (tp.timing_change = false → tp.bpm = none) ∧
      (tp.timing_change = true → 0 < tp.beat_length →
        tp.bpm = some (60000 / tp.beat_length)) := by
  obtain ⟨tp, htp⟩ := exceptOk_exists
    (x := _parse_timing_points_section_line "500,333.33,4,2,1,60,1,0") (by decide)
  exact ⟨tp, htp, bpm_only_for_tempo_points _ tp htp⟩

/-- C10: a TimingPoints line whose beat-length field is 0 while every other
present field parses and the timing-change field is absent or `1` makes the
BPM computation divide 60000 by zero: the parse fails with
`ZeroDivisionError`, not with any of the parse error kinds the spec lists. -/
theorem zero_beat_length_divides_by_zero (line : String)
    (v0 : String) (hv0 : listGetE (pySplitChar ',' line) 0 = .ok v0)
    (t : Int) (ht : pyInt v0 = some t)
    (v1 : String) (hv1 : listGetE (pySplitChar ',' line) 1 = .ok v1)
    (hbl : pyFloat v1 = some 0)
    (sig : Int) (hsig : intFieldD (pySplitChar ',' line) 2 4 = .ok sig)
    (ss : Option Int) (hss : intOptField (pySplitChar ',' line) 3 = .ok ss)
    (si : Int) (hsi : intFieldD (pySplitChar ',' line) 4 0 = .ok si)
    (sv : Option Int) (hsv : intOptField (pySplitChar ',' line) 5 = .ok sv)
    (htc : (pySplitChar ',' line).length < 7 ∨
      listGetE (pySplitChar ',' line) 6 = .ok "1")
    (eff : Option Int) (heff : intOptField (pySplitChar ',' line) 7 = .ok eff) :
    _parse_timing_points_section_line line = .error .zeroDivisionError := by
  have e1 : pyIntE v0 = .ok t := by unfold pyIntE; rw [ht]
  have e2 : pyFloatE v1 = .ok 0 := by unfold pyFloatE; rw [hbl]
  have e6 : boolFieldD (pySplitChar ',' line) 6 true = .ok true := by
    rcases htc with hlt | h1
    · unfold boolFieldD
      rw [if_neg (by omega)]
      rfl
    · unfold boolFieldD
      have hge : (pySplitChar ',' line).length ≥ 6 + 1 := by
        by_contra hc
        have : listGetE (pySplitChar ',' line) 6 = .error .indexError := by
          unfold listGetE
          rw [List.get?_eq_none.mpr (by omega)]
        rw [this] at h1
        exact Except.noConfusion h1
      rw [if_pos hge]
      simp only [except_bind_ok]
      exact ⟨"1", h1, by decide⟩
  unfold _parse_timing_points_section_line
  simp only [hv0, except_ok_bind, e1, hv1, e2, hsig, hss, hsi, hsv, e6, heff]
  simp [bpmField, Bind.bind, Except.bind]

theorem zero_beat_length_divides_by_zero_witness :
    _parse_timing_points_section_line "500,0" = .error .zeroDivisionError :=
  zero_beat_length_divides_by_zero "500,0" "500" (by decide) 500 (by decide)
    "0" (by decide) (by decide) 4 (by decide) none (by decide) 0 (by decide)
    none (by decide) (Or.inl (by decide)) none (by decide)

/-! ### Break-period clamping (C5) -/

theorem pyIntE_ok {s : String} {n : Int} (h : pyIntE s = .ok n) :
    pyInt s = some n := by
  unfold pyIntE at h
  cases hv : pyInt s with
  | some m => rw [hv] at h; cases h; rfl
  | none => rw [hv] at h; exact Except.noConfusion h

/-- Inversion of a parsed break line: the end time is the clamped
`max(start, raw_end)`. -/
theorem events_break_inv (line : String) (e : BreakEvent)
    (h : _parse_events_section_line line = .ok (.break_periods e)) :
    e.start_time ≤ e.end_time ∧
    ∃ v1 v2 s r, listGetE (pySplitChar ',' line) 1 = .ok v1 ∧
      listGetE (pySplitChar ',' line) 2 = .ok v2 ∧
      pyInt v1 = some s ∧ pyInt v2 = some r ∧
      e.start_time = s ∧ e.end_time = max s r := by
  unfold _parse_events_section_line at h
  simp only [except_bind_ok, except_map_ok, except_pure_ok] at h
  obtain ⟨et, het, c0, hc0, h⟩ := h
  iterate 4 (all_goals try (split at h))
  · simp at h
  · simp [except_bind_ok, except_pure_ok] at h
  · simp [except_bind_ok, except_pure_ok] at h
  · simp only [except_bind_ok, except_pure_ok, Except.ok.injEq,
      EventsPair.break_periods.injEq] at h
    obtain ⟨v1, hv1, s, hs, v2, hv2, r, hr, he⟩ := h
    subst he
    exact ⟨Int.le_max_left s r,
      v1, v2, s, r, hv1, hv2, pyIntE_ok hs, pyIntE_ok hr, rfl, rfl⟩
  · exact absurd h (by simp)

/-- The `_add_offsets` preserves order (it adds the same constant). -/
theorem add_offsets_mono {a b : Int} (h : a ≤ b) (v : Int) :
    _add_offsets a v ≤ _add_offsets b v := by
  unfold _add_offsets
  split
  · exact Int.add_le_add_right h _
  · exact h

/-- One dispatched line keeps every stored break period clamped. -/
theorem handleLine_break_inv {v : Int} {cur : Option String}
    {st st2 : ParserState} {line : String}
    (h : handleLine v cur st line = .ok st2)
    (hP : ∀ b ∈ st.events.break_periods, b.start_time ≤ b.end_time) :
    ∀ b ∈ st2.events.break_periods, b.start_time ≤ b.end_time := by
  unfold handleLine at h
  iterate 7 (all_goals try (split at h))
  all_goals
    first
    | (cases h; exact hP)
    | (obtain ⟨p, hp2, h2⟩ := except_map_ok.mp h
       rw [← h2]
       first
       | exact hP
       | (cases p with
          | storyboard_data l => exact hP
          | background e => exact hP
          | videos e => exact hP
          | break_periods e =>
            intro b hb
            simp only [applyEventsPair, List.mem_append, List.mem_singleton] at hb
            rcases hb with hb | hb
            · exact hP b hb
            · subst hb
              exact add_offsets_mono (events_break_inv _ _ hp2).1 v))

/-- The main loop keeps every stored break period clamped. -/
theorem parseLines_break_inv (v : Int) (lines : List String) :
    ∀ cur st st2, parseLines v cur st lines = .ok st2 →
      (∀ b ∈ st.events.break_periods, b.start_time ≤ b.end_time) →
      (∀ b ∈ st2.events.break_periods, b.start_time ≤ b.end_time) := by
  induction lines with
  | nil =>
    intro cur st st2 h hP
    unfold parseLines at h
    cases h
    exact hP
  | cons line rest ih =>
    intro cur st st2 h hP
    unfold parseLines at h
    split at h
    · exact ih _ _ _ h hP
    · split at h
      · exact ih _ _ _ h hP
      · split at h
        · exact absurd h (by simp)
        · rename_i st3 hh
          exact ih _ _ _ h (handleLine_break_inv hh hP)

/-- C5: every break period of the output satisfies
`end_time >= start_time`, because the per-line parse clamps the raw end
time up to the start time (`end = max(start, raw_end)`) and the offset
pass adds the same constant to both endpoints. -/
theorem break_periods_clamped :
    (∀ (md5hex : String → String) (buffer : String) (doc : BeatmapFile),
       parse_file md5hex buffer = .ok doc →
       ∀ b ∈ doc.events.break_periods, b.start_time ≤ b.end_time) ∧
    (∀ line e, _parse_events_section_line line = .ok (.break_periods e) →
       e.start_time ≤ e.end_time ∧
       ∃ v1 v2 s r, listGetE (pySplitChar ',' line) 1 = .ok v1 ∧
         listGetE (pySplitChar ',' line) 2 = .ok v2 ∧
         pyInt v1 = some s ∧ pyInt v2 = some r ∧
         e.start_time = s ∧ e.end_time = max s r) := by
  constructor
  · intro md5hex buffer doc h
    obtain ⟨fh, rest, version, st, _, _, hlines, hc⟩ := parse_file_ok_inv h
    obtain ⟨_, _, hev, _⟩ := construct_ok_fields hc
    rw [hev]
    exact parseLines_break_inv version rest none initState st hlines
      (by intro b hb; exact absurd hb (by simp [initState]))
  · exact events_break_inv

theorem break_periods_clamped_witness :
    (∃ doc, parse_file md5Stub sampleV14 = .ok doc ∧
       ∀ b ∈ doc.events.break_periods, b.start_time ≤ b.end_time) ∧
    (∃ e, _parse_events_section_line "2,100,50" = .ok (.break_periods e) ∧
       e.start_time ≤ e.end_time) := by
  constructor
  · obtain ⟨doc, hd⟩ := exceptOk_exists (x := parse_file md5Stub sampleV14)
      (by decide)
    exact ⟨doc, hd, break_periods_clamped.1 md5Stub sampleV14 doc hd⟩
  · have h : _parse_events_section_line "2,100,50" =
        .ok (.break_periods ⟨100, 100⟩) := by decide
    exact ⟨⟨100, 100⟩, h, (break_periods_clamped.2 _ _ h).1⟩

/-! ### Version-dependent offset correction (C2) -/

/-- A dispatched TimingPoints line appends exactly the parsed point with
`_add_offsets` applied once to its time. -/
theorem handleLine_timing {v : Int} {st st2 : ParserState} {line : String}
    (h : handleLine v (some "timingpoints") st line = .ok st2) :
    ∃ raw, _parse_timing_points_section_line line = .ok raw ∧
      st2 = { st with timing_points := st.timing_points ++
        [{ raw with time := _add_offsets raw.time v }] } := by
  unfold handleLine at h
  rw [if_neg (by decide), if_neg (by decide), if_neg (by decide),
    if_neg (by decide), if_neg (by decide), if_pos rfl] at h
  obtain ⟨raw, hraw, h2⟩ := except_map_ok.mp h
  exact ⟨raw, hraw, h2.symm⟩

/-- A dispatched Events line that parses as a break period appends exactly
the parsed record with `_add_offsets` applied once to each endpoint. -/
theorem handleLine_events_break {v : Int} {st st2 : ParserState}
    {line : String} {e : BreakEvent}
    (h : handleLine v (some "events") st line = .ok st2)
    (hcm : pyStartsWith line "//" = false)
    (hp : _parse_events_section_line line = .ok (.break_periods e)) :
    st2.events.break_periods = st.events.break_periods ++
      [{ start_time := _add_offsets e.start_time v,
         end_time := _add_offsets e.end_time v }] := by
  unfold handleLine at h
  rw [if_neg (by decide), if_neg (by decide), if_neg (by decide),
    if_neg (by decide), if_pos rfl, if_neg (by simp [hcm])] at h
  obtain ⟨p, hp2, h2⟩ := except_map_ok.mp h
  rw [hp] at hp2
  have hpe : p = .break_periods e := (Except.ok.inj hp2).symm
  subst hpe
  rw [← h2]
  rfl

theorem requireField_some {α : Type} {n : String} {o : Option α} {a : α}
    (h : requireField n o = .ok a) : o = some a := by
  cases o with
  | some x =>
    unfold requireField at h
    exact congrArg some (Except.ok.inj h)
  | none =>
    unfold requireField at h
    exact Except.noConfusion h

/-- A validated general section copies the raw preview time through. -/
theorem validateGeneral_preview {g : GeneralRaw} {gs : GeneralSection}
    (h : validateGeneral g = .ok gs) :
    ∃ pt, g.preview_time = some pt ∧ gs.preview_time = pt := by
  unfold validateGeneral at h
  simp only [except_bind_ok, except_pure_ok, Except.ok.injEq] at h
  obtain ⟨af, haf, al, hal, pt, hpt, cdr, hcdr, cd, hcd, ssr, hssr, sst, hsst,
    sl, hsl, mr, hmr, md, hmd, lb, hlb, ov, hov, hrec⟩ := h
  subst hrec
  exact ⟨pt, requireField_some hpt, rfl⟩

/-- What the `_apply_offsets` model validator does to the preview time:
the Python truthiness guard skips both `0` and `-1`. -/
theorem apply_offsets_preview (f : BeatmapFile) :
    (BeatmapFile._apply_offsets f).general.preview_time =
      if f.general.preview_time ≠ 0 ∧ f.general.preview_time ≠ -1
      then _add_offsets f.general.preview_time f.file_version
      else f.general.preview_time := by
  unfold BeatmapFile._apply_offsets
  split
  · rfl
  · rfl

/-- Inversion of `BeatmapFile.construct` for the preview time. -/
theorem construct_preview {v : Int} {m : String} {st : ParserState}
    {doc : BeatmapFile} (h : BeatmapFile.construct v m st = .ok doc) :
    ∃ pt, st.general.preview_time = some pt ∧
      doc.general.preview_time =
        if pt ≠ 0 ∧ pt ≠ -1 then _add_offsets pt v else pt := by
  unfold BeatmapFile.construct at h
  simp only [except_bind_ok, except_pure_ok, Except.ok.injEq] at h
  obtain ⟨gs, hgs, es, hes, ms, hms, ds, hds, hrec⟩ := h
  obtain ⟨pt, hpt, hgp⟩ := validateGeneral_preview hgs
  refine ⟨pt, hpt, ?_⟩
  subst hrec
  rw [apply_offsets_preview]
  show (if gs.preview_time ≠ 0 ∧ gs.preview_time ≠ -1
    then _add_offsets gs.preview_time v else gs.preview_time) = _
  rw [hgp]

/-- C2 counterexample: a format-v4 file with raw `PreviewTime: 0`
(present and different from -1) parses with output preview time 0, not
0 + 24: the truthiness guard of `_apply_offsets` skips a zero preview
time, contradicting the claim as stated. -/
theorem preview_time_zero_not_offset :
    (parse_file md5Stub sampleV4Preview0).map
      (fun d => (d.file_version, d.general.preview_time)) = .ok (4, 0) ∧
    _parse_general_section_line "PreviewTime: 0" = .ok (.preview_time 0) ∧
    (0 : Int) ≠ 0 + 24 := by decide

/-- C2 amended: with `format_version < 5` every timestamp is corrected by
+24 exactly once — each dispatched timing point is appended with
`_add_offsets` applied once to its time, each dispatched break period with
`_add_offsets` applied once to each endpoint, and the validated document
preview time gets `_add_offsets` exactly when the raw value is present,
not 0 and not -1 (the truthiness guard also skips 0); with
`format_version >= 5` `_add_offsets` is the identity. -/
theorem offsets_applied_once_amended :
    (∀ time v : Int, _add_offsets time v = if v < 5 then time + 24 else time) ∧
    (∀ (v : Int) (st st2 : ParserState) (line : String),
       handleLine v (some "timingpoints") st line = .ok st2 →
       ∃ raw, _parse_timing_points_section_line line = .ok raw ∧
         st2.timing_points = st.timing_points ++
           [{ raw with time := _add_offsets raw.time v }]) ∧
    (∀ (v : Int) (st st2 : ParserState) (line : String) (e : BreakEvent),
       handleLine v (some "events") st line = .ok st2 →
       pyStartsWith line "//" = false →
       _parse_events_section_line line = .ok (.break_periods e) →
       st2.events.break_periods = st.events.break_periods ++
         [{ start_time := _add_offsets e.start_time v,
            end_time := _add_offsets e.end_time v }]) ∧
    (∀ (v : Int) (m : String) (st : ParserState) (doc : BeatmapFile),
       BeatmapFile.construct v m st = .ok doc →
       doc.timing_points = st.timing_points ∧
       doc.events.break_periods = st.events.break_periods ∧
       ∃ pt, st.general.preview_time = some pt ∧
         doc.general.preview_time =
           if pt ≠ 0 ∧ pt ≠ -1 then _add_offsets pt v else pt) := by
  refine ⟨fun time v => rfl, ?_, ?_, ?_⟩
  · intro v st st2 line h
    obtain ⟨raw, hraw, hst⟩ := handleLine_timing h
    exact ⟨raw, hraw, by rw [hst]⟩
  · intro v st st2 line e h hcm hp
    exact handleLine_events_break h hcm hp
  · intro v m st doc h
    obtain ⟨hfv, hmd, hev, htp⟩ := construct_ok_fields h
    exact ⟨htp, by rw [hev], construct_preview h⟩

theorem offsets_applied_once_amended_witness :
    _add_offsets 1000 4 = 1024 ∧
    (∃ st2, handleLine 4 (some "timingpoints") initState "400,200" = .ok st2 ∧
       ∃ raw, _parse_timing_points_section_line "400,200" = .ok raw ∧
         st2.timing_points = initState.timing_points ++
           [{ raw with time := _add_offsets raw.time 4 }]) ∧
    (∃ st2, handleLine 4 (some "events") initState "2,100,50" = .ok st2 ∧
       st2.events.break_periods = initState.events.break_periods ++
         [{ start_time := _add_offsets (100 : Int) 4,
            end_time := _add_offsets (100 : Int) 4 }]) ∧
    (∃ doc, BeatmapFile.construct 4 "m" sampleState = .ok doc ∧
       doc.general.preview_time = 1024) := by
  refine ⟨by decide, ?_, ?_, ?_⟩
  · obtain ⟨st2, h2⟩ := exceptOk_exists
      (x := handleLine 4 (some "timingpoints") initState "400,200") (by decide)
    exact ⟨st2, h2, offsets_applied_once_amended.2.1 4 initState st2 "400,200" h2⟩
  · obtain ⟨st2, h2⟩ := exceptOk_exists
      (x := handleLine 4 (some "events") initState "2,100,50") (by decide)
    exact ⟨st2, h2, offsets_applied_once_amended.2.2.1 4 initState st2 "2,100,50"
      ⟨100, 100⟩ h2 (by decide) (by decide)⟩
  · obtain ⟨doc, hd⟩ := exceptOk_exists
      (x := BeatmapFile.construct 4 "m" sampleState) (by decide)
    obtain ⟨_, _, pt, hpt, hdoc⟩ :=
      offsets_applied_once_amended.2.2.2 4 "m" sampleState doc hd
    have hpt1000 : pt = 1000 := by
      have : some (1000 : Int) = some pt := hpt
      exact (Option.some.inj this).symm
    subst hpt1000
    refine ⟨doc, hd, ?_⟩
    rw [hdoc, if_pos (by decide)]
    decide

/-! ### Timing points kept in file order (C1) -/

/-- The offset-corrected parse of one TimingPoints line, exactly as
`parse_file` stores it. -/
def corrTP (v : Int) (l : String) : Except PyErr TimingPoint :=
  (_parse_timing_points_section_line l).map
    (fun tp => { tp with time := _add_offsets tp.time v })

/-- The `corrTP` over a list of lines, in order, failing on the first bad
line. -/
def mapCorr (v : Int) : List String → Except PyErr (List TimingPoint)
  | [] => .ok []
  | l :: ls => do
    let tp ← corrTP v l
    let tps ← mapCorr v ls
    .ok (tp :: tps)

/-- The lines the main loop dispatches to the TimingPoints handler, in
file order: same blank-skip and section switching as `parseLines`. -/
def timingLines : Option String → List String → List String
  | _, [] => []
  | cur, line :: rest =>
    if pyStrip line = "" then timingLines cur rest
    else if pyStartsWith line "[" && pyEndsWith line "]" then
      timingLines (some (sectionName line)) rest
    else if cur = some "timingpoints" then line :: timingLines cur rest
    else timingLines cur rest

/-- A line dispatched under any other section leaves the timing-point list
untouched. -/
theorem handleLine_other_timing {v : Int} {cur : Option String}
    {st st2 : ParserState} {line : String}
    (h : handleLine v cur st line = .ok st2)
    (hne : cur ≠ some "timingpoints") :
    st2.timing_points = st.timing_points := by
  unfold handleLine at h
  iterate 7 (all_goals try (split at h))
  all_goals
    first
    | (exact absurd (by assumption) hne)
    | (cases h; rfl)
    | (obtain ⟨p, hp2, h2⟩ := except_map_ok.mp h
       subst h2
       rfl)

/-- The main loop appends exactly the offset-corrected parses of the
dispatched TimingPoints lines, in file order. -/
theorem parseLines_timing (v : Int) (lines : List String) :
    ∀ cur st st2, parseLines v cur st lines = .ok st2 →
      ∃ suffix, mapCorr v (timingLines cur lines) = .ok suffix ∧
        st2.timing_points = st.timing_points ++ suffix := by
  induction lines with
  | nil =>
    intro cur st st2 h
    unfold parseLines at h
    cases h
    exact ⟨[], rfl, by simp⟩
  | cons line rest ih =>
    intro cur st st2 h
    unfold parseLines at h
    unfold timingLines
    split at h
    · rename_i hb
      rw [if_pos hb]
      exact ih _ _ _ h
    · rename_i hb
      rw [if_neg hb]
      split at h
      · rename_i hbr
        rw [if_pos hbr]
        exact ih _ _ _ h
      · rename_i hbr
        rw [if_neg hbr]
        split at h
        · exact absurd h (by simp)
        · rename_i st3 hh
          by_cases hcur : cur = some "timingpoints"
          · rw [if_pos hcur]
            subst hcur
            obtain ⟨raw, hraw, hst3⟩ := handleLine_timing hh
            obtain ⟨suffix, hmap, happ⟩ := ih _ _ _ h
            refine ⟨{ raw with time := _add_offsets raw.time v } :: suffix, ?_, ?_⟩
            · unfold mapCorr
              have hcorr : corrTP v line =
                  .ok { raw with time := _add_offsets raw.time v } := by
                unfold corrTP
                rw [hraw]
                rfl
              rw [hcorr]
              simp only [except_ok_bind]
              rw [hmap]
              simp only [except_ok_bind]
            · rw [happ, hst3]
              simp
          · rw [if_neg hcur]
            obtain ⟨suffix, hmap, happ⟩ := ih _ _ _ h
            exact ⟨suffix, hmap,
              by rw [happ, handleLine_other_timing hh hcur]⟩

/-- C1: a successfully parsed document exposes the events aggregate and
the timing-point sequence built by the main loop, and its `timing_points`
are exactly the per-line parses of the TimingPoints-section lines in
original file order — appended one by one, never sorted or deduplicated,
so duplicate or out-of-order timestamps survive verbatim. -/
theorem timing_points_kept_in_file_order (md5hex : String → String)
    (buffer : String) (doc : BeatmapFile)
    (h : parse_file md5hex buffer = .ok doc) :
    ∃ file_header rest st,
      pySplitlines buffer = file_header :: rest ∧
      parseLines doc.file_version none initState rest = .ok st ∧
      doc.events = st.events ∧
      mapCorr doc.file_version (timingLines none rest) = .ok doc.timing_points := by
  obtain ⟨fh, rest, version, st, hsplit, hv, hlines, hc⟩ := parse_file_ok_inv h
  obtain ⟨hfv, _, hev, htp⟩ := construct_ok_fields hc
  obtain ⟨suffix, hmap, happ⟩ :=
    parseLines_timing version rest none initState st hlines
  have hsuf : st.timing_points = suffix := by
    rw [happ]
    simp [initState]
  refine ⟨fh, rest, st, hsplit, by rw [hfv]; exact hlines, hev, ?_⟩
  rw [hfv, htp, hsuf]
  exact hmap

theorem timing_points_kept_in_file_order_witness :
    ∃ doc, parse_file md5Stub sampleV14 = .ok doc ∧
      ∃ file_header rest st,
        pySplitlines sampleV14 = file_header :: rest ∧
        parseLines doc.file_version none initState rest = .ok st ∧
        doc.events = st.events ∧
        mapCorr doc.file_version (timingLines none rest) =
          .ok doc.timing_points := by
  obtain ⟨doc, hd⟩ := exceptOk_exists (x := parse_file md5Stub sampleV14)
    (by decide)
  exact ⟨doc, hd, timing_points_kept_in_file_order md5Stub sampleV14 doc hd⟩

/-! ### Header parsing (C6) -/

/-- Modelled from the spec (for comparison with the behaviour of the code):
the header pattern the spec describes, "a pattern identifying the format
name and an embedded version integer (e.g. `osu file format vN`)". -/
def headerPatternVersion (s : String) : Option Nat :=
  if pyStartsWith s "osu file format v" then
    let rest := s.data.drop "osu file format v".length
    if digitsOk rest then some (natOfDigits rest) else none
  else none

theorem dropWhile_no {α : Type} (p : α → Bool) (cs : List α)
    (h : ∀ c ∈ cs, p c = false) : cs.dropWhile p = cs := by
  cases cs with
  | nil => rfl
  | cons c rest => simp [List.dropWhile_cons, h c (by simp)]

theorem pyStrip_eq_self {s : String} (h : ∀ c ∈ s.data, pyIsSpace c = false) :
    pyStrip s = s := by
  unfold pyStrip
  rw [dropWhile_no _ _ h,
    dropWhile_no _ _ (fun c hc => h c (List.mem_reverse.mp hc)),
    List.reverse_reverse]

theorem digitsRun_mem (cs : List Char) : ∀ b, digitsRun b cs = true →
    ∀ c ∈ cs, isAsciiDigit c = true ∨ c = '_' := by
  induction cs with
  | nil => intro b h c hc; exact absurd hc (by simp)
  | cons c1 rest ih =>
    intro b h c hc
    have h2 : (if c1 = '_' then !b && digitsRun true rest
      else isAsciiDigit c1 && digitsRun false rest) = true := h
    by_cases hc1 : c1 = '_'
    · rw [if_pos hc1] at h2
      simp only [Bool.and_eq_true] at h2
      rcases List.mem_cons.mp hc with rfl | hc'
      · right; exact hc1
      · exact ih true h2.2 c hc'
    · rw [if_neg hc1] at h2
      simp only [Bool.and_eq_true] at h2
      rcases List.mem_cons.mp hc with rfl | hc'
      · left; exact h2.1
      · exact ih false h2.2 c hc'

theorem digitsOk_mem {cs : List Char} (h : digitsOk cs = true) :
    ∀ c ∈ cs, isAsciiDigit c = true ∨ c = '_' := by
  cases cs with
  | nil => exact absurd h (by decide)
  | cons c1 rest =>
    intro c hc
    have h2 : (isAsciiDigit c1 && digitsTail rest) = true := h
    simp only [Bool.and_eq_true] at h2
    rcases List.mem_cons.mp hc with rfl | hc'
    · left; exact h2.1
    · exact digitsRun_mem rest false h2.2 c hc'

theorem digit_char_no_space {c : Char} (h : isAsciiDigit c = true ∨ c = '_') :
    pyIsSpace c = false := by
  rcases h with h | rfl
  · by_contra hc
    rw [Bool.not_eq_false] at hc
    unfold pyIsSpace at hc
    simp only [Bool.or_eq_true, decide_eq_true_eq] at hc
    rcases hc with ((((h1 | h1) | h1) | h1) | h1) | h1 <;>
      (subst h1; exact absurd h (by decide))
  · decide

theorem digit_char_ne_of {c : Char} (h : isAsciiDigit c = true ∨ c = '_')
    (d : Char) (hd : isAsciiDigit d = false ∧ d ≠ '_') : c ≠ d := by
  intro hcd
  subst hcd
  rcases h with h | h
  · rw [h] at hd
    exact Bool.noConfusion hd.1
  · exact hd.2 h

theorem splitCharAux_no_sep (sep : Char) (cs : List Char) :
    ∀ acc, (∀ c ∈ cs, c ≠ sep) →
      splitCharAux sep cs acc = [String.mk (acc.reverse ++ cs)] := by
  induction cs with
  | nil => intro acc h; simp [splitCharAux]
  | cons c rest ih =>
    intro acc h
    have h2 : splitCharAux sep (c :: rest) acc =
        if c = sep then String.mk acc.reverse :: splitCharAux sep rest []
        else splitCharAux sep rest (c :: acc) := rfl
    rw [h2, if_neg (h c (by simp)), ih _ (fun d hd => h d (by simp [hd]))]
    simp

theorem splitCharAux_seq (sep : Char) (l1 : List Char) (l2 : List Char) :
    ∀ acc, (∀ c ∈ l1, c ≠ sep) →
      splitCharAux sep (l1 ++ sep :: l2) acc =
        String.mk (acc.reverse ++ l1) :: splitCharAux sep l2 [] := by
  induction l1 with
  | nil =>
    intro acc h
    have h2 : splitCharAux sep (sep :: l2) acc =
        if sep = sep then String.mk acc.reverse :: splitCharAux sep l2 []
        else splitCharAux sep l2 (sep :: acc) := rfl
    simp only [List.nil_append]
    rw [h2, if_pos rfl]
    simp
  | cons c rest ih =>
    intro acc h
    have h2 : splitCharAux sep (c :: (rest ++ sep :: l2)) acc =
        if c = sep then String.mk acc.reverse :: splitCharAux sep (rest ++ sep :: l2) []
        else splitCharAux sep (rest ++ sep :: l2) (c :: acc) := rfl
    rw [show (c :: rest) ++ sep :: l2 = c :: (rest ++ sep :: l2) from rfl,
      h2, if_neg (h c (by simp)), ih _ (fun d hd => h d (by simp [hd]))]
    simp

theorem pyInt_digits {s : String} (h : digitsOk s.data = true) :
    pyInt s = some ((natOfDigits s.data : Int)) := by
  have hns : ∀ c ∈ s.data, pyIsSpace c = false :=
    fun c hc => digit_char_no_space (digitsOk_mem h c hc)
  unfold pyInt
  rw [pyStrip_eq_self hns]
  split
  · rename_i rest heq
    rw [heq] at h
    have hplus : isAsciiDigit '+' = false := by decide
    simp [digitsOk, hplus] at h
  · rename_i rest heq
    rw [heq] at h
    have hminus : isAsciiDigit '-' = false := by decide
    simp [digitsOk, hminus] at h
  · rw [if_pos h]

theorem parseVersion_pattern (s : String) (h : digitsOk s.data = true) :
    parseVersion ("osu file format v" ++ s) = .ok ((natOfDigits s.data : Int)) := by
  have hmem := digitsOk_mem h
  have hnv : ∀ c ∈ s.data, c ≠ 'v' :=
    fun c hc => digit_char_ne_of (hmem c hc) 'v' ⟨by decide, by decide⟩
  have hdata : ("osu file format v" ++ s).data =
      "osu file format ".data ++ 'v' :: s.data := by
    have h1 : ("osu file format v" ++ s).data =
        "osu file format v".data ++ s.data := rfl
    have h2 : "osu file format v".data = "osu file format ".data ++ ['v'] := by
      decide
    rw [h1, h2, List.append_assoc]
    rfl
  have hpre : ∀ c ∈ "osu file format ".data, c ≠ 'v' := by decide
  have hsp : pySplitChar 'v' ("osu file format v" ++ s) =
      ["osu file format ", s] := by
    unfold pySplitChar
    rw [hdata, splitCharAux_seq 'v' _ _ _ hpre, splitCharAux_no_sep 'v' _ _ hnv]
    simp
  unfold parseVersion
  simp only [hsp]
  have hget : listGetE ["osu file format ", s] 1 = .ok s := rfl
  rw [hget]
  simp only [except_ok_bind]
  unfold pyIntE
  rw [pyInt_digits h]

theorem parse_file_header_fail {md5hex : String → String} {buffer : String}
    {fh : String} {rest : List String} {e : PyErr}
    (hsplit : pySplitlines buffer = fh :: rest)
    (he : parseVersion fh = .error e) :
    parse_file md5hex buffer = .error e := by
  unfold parse_file
  simp only [hsplit, he]
  rfl

/-- C6 counterexample: the header `v7` does not match the claimed
`osu file format vN` pattern, yet the file parses successfully (no
`HeaderParseError` exists in the code) and its version is 7. -/
theorem header_pattern_not_required :
    headerPatternVersion "v7" = none ∧
    (parse_file md5Stub sampleHeaderV7).map (fun d => d.file_version) =
      .ok 7 := by decide

/-- C6 amended: the version is extracted by `int(header.split("v")[1])` —
whatever follows the first `v` of the header line, converted by `int()`.
Every successful parse gets its `format_version` from that extraction; a
header of the form `osu file format v<digits>` yields exactly the embedded
integer; and when the extraction fails (no `v`, or a non-integer piece)
the parse fails with that `IndexError`/`ValueError` — there is no header
pattern check and no dedicated `HeaderParseError`. -/
theorem header_version_extraction_amended :
    (∀ (md5hex : String → String) (buffer : String) (doc : BeatmapFile),
       parse_file md5hex buffer = .ok doc →
       ∃ fh rest, pySplitlines buffer = fh :: rest ∧
         parseVersion fh = .ok doc.file_version) ∧
    (∀ s : String, digitsOk s.data = true →
       parseVersion ("osu file format v" ++ s) =
         .ok ((natOfDigits s.data : Int))) ∧
    (∀ (md5hex : String → String) (buffer : String) (fh : String)
       (rest : List String) (e : PyErr),
       pySplitlines buffer = fh :: rest → parseVersion fh = .error e →
       parse_file md5hex buffer = .error e) := by
  refine ⟨?_, parseVersion_pattern, ?_⟩
  · intro md5hex buffer doc h
    obtain ⟨fh, rest, version, st, hsplit, hv, _, hc⟩ := parse_file_ok_inv h
    exact ⟨fh, rest, hsplit, by rw [(construct_ok_fields hc).1]; exact hv⟩
  · intro md5hex buffer fh rest e hsplit he
    exact parse_file_header_fail hsplit he

theorem header_version_extraction_amended_witness :
    (∃ doc, parse_file md5Stub sampleHeaderV7 = .ok doc ∧
       ∃ fh rest, pySplitlines sampleHeaderV7 = fh :: rest ∧
         parseVersion fh = .ok doc.file_version) ∧
    parseVersion ("osu file format v" ++ "14") = .ok ((natOfDigits "14".data : Int)) ∧
    parse_file md5Stub "bad header" = .error .indexError := by
  refine ⟨?_, ?_, ?_⟩
  · obtain ⟨doc, hd⟩ := exceptOk_exists (x := parse_file md5Stub sampleHeaderV7)
      (by decide)
    exact ⟨doc, hd, header_version_extraction_amended.1 md5Stub sampleHeaderV7 doc hd⟩
  · exact header_version_extraction_amended.2.1 "14" (by decide)
  · exact header_version_extraction_amended.2.2 md5Stub "bad header"
      "bad header" [] .indexError (by decide) (by decide)

/-! ### Enumeration coercion (C7) -/

theorem countdown_int_loop {n : Int} (hn : Countdown.ofValue n = none) :
    ∀ fuel, Countdown.fromTypeAux fuel (.int n) = .error .recursionError := by
  intro fuel
  induction fuel with
  | zero => rfl
  | succ f ih =>
    have h : Countdown.fromTypeAux (f + 1) (.int n) =
        (match Countdown.ofValue n with
         | some c => .ok c
         | none => Countdown.fromTypeAux f (.int n)) := rfl
    rw [h, hn]
    exact ih

theorem sampleset_int_loop {n : Int} (hn : SampleSet.ofValue n = none) :
    ∀ fuel, SampleSet.fromTypeAux fuel (.int n) = .error .recursionError := by
  intro fuel
  induction fuel with
  | zero => rfl
  | succ f ih =>
    have h : SampleSet.fromTypeAux (f + 1) (.int n) =
        (match SampleSet.ofValue n with
         | some c => .ok c
         | none => SampleSet.fromTypeAux f (.int n)) := rfl
    rw [h, hn]
    exact ih

set_option maxRecDepth 8192 in
/-- C7 counterexample: for an integer matching no member, the
`from_type` of `Countdown` (and of `SampleSet`) recurses through `cls()` / `_missing_`
until `RecursionError` — it does not fail with the naming `ValueError`
the claim requires — and `OverlayPosition.from_type` rejects every
integer outright. -/
theorem enum_coercion_counterexample :
    Countdown.from_type (.int 7) = .error .recursionError ∧
    SampleSet.from_type (.str "7") = .error .recursionError ∧
    OverlayPosition.from_type (.int 0) =
      .error (.valueError "OverlayPosition 0 does not exist.") := by decide

/-- C7 amended: `Countdown` and `SampleSet` accept the member itself, an
integer matching a member value, and a digit string or case-insensitive
name string; a non-member name fails with the `ValueError` naming the
enumeration and the value, but a non-member integer (or digit string)
diverges into `RecursionError`. `OverlayPosition` accepts only the member
itself or a case-insensitive name; every integer fails with its naming
`ValueError`. -/
theorem enum_from_type_amended :
    (∀ c : Countdown, Countdown.from_type (.mem c) = .ok c) ∧
    (∀ s : SampleSet, SampleSet.from_type (.mem s) = .ok s) ∧
    (∀ o : OverlayPosition, OverlayPosition.from_type (.mem o) = .ok o) ∧
    (∀ n c, Countdown.ofValue n = some c →
       Countdown.from_type (.int n) = .ok c) ∧
    (∀ n s, SampleSet.ofValue n = some s →
       SampleSet.from_type (.int n) = .ok s) ∧
    (∀ n, Countdown.ofValue n = none →
       Countdown.from_type (.int n) = .error .recursionError) ∧
    (∀ n, SampleSet.ofValue n = none →
       SampleSet.from_type (.int n) = .error .recursionError) ∧
    (∀ str c, pyIsdigit str = true →
       Countdown.ofValue ((natOfDigits str.data : Int)) = some c →
       Countdown.from_type (.str str) = .ok c) ∧
    (∀ str, pyIsdigit str = true →
       Countdown.ofValue ((natOfDigits str.data : Int)) = none →
       Countdown.from_type (.str str) = .error .recursionError) ∧
    (∀ str c, pyIsdigit str = false →
       Countdown.ofName (pyToUpper str) = some c →
       Countdown.from_type (.str str) = .ok c) ∧
    (∀ str, pyIsdigit str = false →
       Countdown.ofName (pyToUpper str) = none →
       Countdown.from_type (.str str) =
         .error (.valueError ("Countdown " ++ str ++ " does not exist."))) ∧
    (∀ str s, pyIsdigit str = true →
       SampleSet.ofValue ((natOfDigits str.data : Int)) = some s →
       SampleSet.from_type (.str str) = .ok s) ∧
    (∀ str, pyIsdigit str = true →
       SampleSet.ofValue ((natOfDigits str.data : Int)) = none →
       SampleSet.from_type (.str str) = .error .recursionError) ∧
    (∀ str s, pyIsdigit str = false →
       SampleSet.ofName (pyToUpper str) = some s →
       SampleSet.from_type (.str str) = .ok s) ∧
    (∀ str, pyIsdigit str = false →
       SampleSet.ofName (pyToUpper str) = none →
       SampleSet.from_type (.str str) =
         .error (.valueError ("SampleSet " ++ str ++ " does not exist."))) ∧
    (∀ n : Int, OverlayPosition.from_type (.int n) =
       .error (.valueError ("OverlayPosition " ++ toString n ++
         " does not exist."))) ∧
    (∀ str o, OverlayPosition.ofName (pyToUpper str) = some o →
       OverlayPosition.from_type (.str str) = .ok o) ∧
    (∀ str, OverlayPosition.ofName (pyToUpper str) = none →
       OverlayPosition.from_type (.str str) =
         .error (.valueError ("OverlayPosition " ++ str ++
           " does not exist."))) := by
  refine ⟨fun c => rfl, fun s => rfl, fun o => rfl, ?_, ?_, ?_, ?_, ?_, ?_,
    ?_, ?_, ?_, ?_, ?_, ?_, fun n => rfl, ?_, ?_⟩
  · intro n c hv
    have h : Countdown.from_type (.int n) =
        (match Countdown.ofValue n with
         | some c => .ok c
         | none => Countdown.fromTypeAux 999 (.int n)) := rfl
    rw [h, hv]
  · intro n s hv
    have h : SampleSet.from_type (.int n) =
        (match SampleSet.ofValue n with
         | some s => .ok s
         | none => SampleSet.fromTypeAux 999 (.int n)) := rfl
    rw [h, hv]
  · intro n hv
    exact countdown_int_loop hv 1000
  · intro n hv
    exact sampleset_int_loop hv 1000
  · intro str c hd hv
    have h : Countdown.from_type (.str str) =
        (if pyIsdigit str then
          match Countdown.ofValue ((natOfDigits str.data : Int)) with
          | some c => .ok c
          | none => Countdown.fromTypeAux 999 (.int ((natOfDigits str.data : Int)))
        else
          match Countdown.ofName (pyToUpper str) with
          | some c => .ok c
          | none => .error (.valueError ("Countdown " ++ str ++
              " does not exist."))) := rfl
    rw [h, if_pos hd, hv]
  · intro str hd hv
    have h : Countdown.from_type (.str str) =
        (if pyIsdigit str then
          match Countdown.ofValue ((natOfDigits str.data : Int)) with
          | some c => .ok c
          | none => Countdown.fromTypeAux 999 (.int ((natOfDigits str.data : Int)))
        else
          match Countdown.ofName (pyToUpper str) with
          | some c => .ok c
          | none => .error (.valueError ("Countdown " ++ str ++
              " does not exist."))) := rfl
    rw [h, if_pos hd, hv]
    exact countdown_int_loop hv 999
  · intro str c hd hv
    have h : Countdown.from_type (.str str) =
        (if pyIsdigit str then
          match Countdown.ofValue ((natOfDigits str.data : Int)) with
          | some c => .ok c
          | none => Countdown.fromTypeAux 999 (.int ((natOfDigits str.data : Int)))
        else
          match Countdown.ofName (pyToUpper str) with
          | some c => .ok c
          | none => .error (.valueError ("Countdown " ++ str ++
              " does not exist."))) := rfl
    rw [h, if_neg (by simp [hd]), hv]
  · intro str hd hv
    have h : Countdown.from_type (.str str) =
        (if pyIsdigit str then
          match Countdown.ofValue ((natOfDigits str.data : Int)) with
          | some c => .ok c
          | none => Countdown.fromTypeAux 999 (.int ((natOfDigits str.data : Int)))
        else
          match Countdown.ofName (pyToUpper str) with
          | some c => .ok c
          | none => .error (.valueError ("Countdown " ++ str ++
              " does not exist."))) := rfl
    rw [h, if_neg (by simp [hd]), hv]
  · intro str s hd hv
    have h : SampleSet.from_type (.str str) =
        (if pyIsdigit str then
          match SampleSet.ofValue ((natOfDigits str.data : Int)) with
          | some s => .ok s
          | none => SampleSet.fromTypeAux 999 (.int ((natOfDigits str.data : Int)))
        else
          match SampleSet.ofName (pyToUpper str) with
          | some s => .ok s
          | none => .error (.valueError ("SampleSet " ++ str ++
              " does not exist."))) := rfl
    rw [h, if_pos hd, hv]
  · intro str hd hv
    have h : SampleSet.from_type (.str str) =
        (if pyIsdigit str then
          match SampleSet.ofValue ((natOfDigits str.data : Int)) with
          | some s => .ok s
          | none => SampleSet.fromTypeAux 999 (.int ((natOfDigits str.data : Int)))
        else
          match SampleSet.ofName (pyToUpper str) with
          | some s => .ok s
          | none => .error (.valueError ("SampleSet " ++ str ++
              " does not exist."))) := rfl
    rw [h, if_pos hd, hv]
    exact sampleset_int_loop hv 999
  · intro str s hd hv
    have h : SampleSet.from_type (.str str) =
        (if pyIsdigit str then
          match SampleSet.ofValue ((natOfDigits str.data : Int)) with
          | some s => .ok s
          | none => SampleSet.fromTypeAux 999 (.int ((natOfDigits str.data : Int)))
        else
          match SampleSet.ofName (pyToUpper str) with
          | some s => .ok s
          | none => .error (.valueError ("SampleSet " ++ str ++
              " does not exist."))) := rfl
    rw [h, if_neg (by simp [hd]), hv]
  · intro str hd hv
    have h : SampleSet.from_type (.str str) =
        (if pyIsdigit str then
          match SampleSet.ofValue ((natOfDigits str.data : Int)) with
          | some s => .ok s
          | none => SampleSet.fromTypeAux 999 (.int ((natOfDigits str.data : Int)))
        else
          match SampleSet.ofName (pyToUpper str) with
          | some s => .ok s
          | none => .error (.valueError ("SampleSet " ++ str ++
              " does not exist."))) := rfl
    rw [h, if_neg (by simp [hd]), hv]
  · intro str o hv
    have h : OverlayPosition.from_type (.str str) =
        (match OverlayPosition.ofName (pyToUpper str) with
         | some o => .ok o
         | none => .error (.valueError ("OverlayPosition " ++ str ++
             " does not exist."))) := rfl
    rw [h, hv]
  · intro str hv
    have h : OverlayPosition.from_type (.str str) =
        (match OverlayPosition.ofName (pyToUpper str) with
         | some o => .ok o
         | none => .error (.valueError ("OverlayPosition " ++ str ++
             " does not exist."))) := rfl
    rw [h, hv]

theorem enum_from_type_amended_witness :
    Countdown.from_type (.int 2) = .ok .HALF ∧
    SampleSet.from_type (.int 3) = .ok .DRUM ∧
    Countdown.from_type (.str "2") = .ok .HALF ∧
    Countdown.from_type (.str "half") = .ok .HALF ∧
    Countdown.from_type (.str "Foo") =
      .error (.valueError "Countdown Foo does not exist.") ∧
    SampleSet.from_type (.str "2") = .ok .SOFT ∧
    SampleSet.from_type (.str "drum") = .ok .DRUM ∧
    SampleSet.from_type (.str "Bar") =
      .error (.valueError "SampleSet Bar does not exist.") ∧
    OverlayPosition.from_type (.str "below") = .ok .BELOW ∧
    OverlayPosition.from_type (.str "Mid") =
      .error (.valueError "OverlayPosition Mid does not exist.") := by
  obtain ⟨h1, h2, h3, h4, h5, h6, h7, h8, h9, h10, h11, h12, h13, h14, h15,
    h16, h17, h18⟩ := enum_from_type_amended
  exact ⟨h4 2 .HALF (by decide), h5 3 .DRUM (by decide),
    h8 "2" .HALF (by decide) (by decide),
    h10 "half" .HALF (by decide) (by decide),
    h11 "Foo" (by decide) (by decide),
    h12 "2" .SOFT (by decide) (by decide),
    h14 "drum" .DRUM (by decide) (by decide),
    h15 "Bar" (by decide) (by decide),
    h17 "below" .BELOW (by decide),
    h18 "Mid" (by decide)⟩

/-! ### Storyboard lines kept verbatim (C8) -/

/-- C8 counterexample: the guard tests only `line[0] == " "`, not tab: a
tab-led storyboard line is not stored verbatim — it falls through to the
event dispatch and raises the unsupported-event `ValueError`. -/
theorem tab_storyboard_line_rejected :
    "\tSprite,Foreground".data.head? = some '\t' ∧
    _parse_events_section_line "\tSprite,Foreground" =
      .error (.valueError
        "Unsupported events section line: \tSprite,Foreground") := by decide

/-- C8 amended: an Events line whose first character is a space (tabs are
not covered by the guard), or whose first comma-delimited token is Sprite,
Animation or Sample, is returned verbatim as storyboard data — no error,
no decomposition. -/
theorem storyboard_lines_kept_verbatim (line : String) (c0 : Char)
    (hc0 : listGetE line.data 0 = .ok c0) (tok : String)
    (htok : listGetE (pySplitChar ',' line) 0 = .ok tok)
    (h : c0 = ' ' ∨ tok ∈ STORYBOARD_EVENTS) :
    _parse_events_section_line line = .ok (.storyboard_data line) := by
  unfold _parse_events_section_line
  simp only [htok, except_ok_bind, hc0]
  have hguard : (decide (c0 = ' ') || decide (tok ∈ STORYBOARD_EVENTS)) = true := by
    rcases h with rfl | h
    · simp
    · simp [h]
  rw [if_pos hguard]

theorem storyboard_lines_kept_verbatim_witness :
    _parse_events_section_line " Sprite,F" = .ok (.storyboard_data " Sprite,F") ∧
    _parse_events_section_line "Animation,F" =
      .ok (.storyboard_data "Animation,F") := by
  refine ⟨storyboard_lines_kept_verbatim " Sprite,F" ' ' (by decide) " Sprite"
    (by decide) (Or.inl rfl), storyboard_lines_kept_verbatim "Animation,F" 'A'
    (by decide) "Animation" (by decide) (Or.inr (by decide))⟩

end Aiosu
